import Mathlib

/-!
Verification development for the peakstranding structure service
(src/main.rs).  The Rust handlers are shallowly embedded: SQL statements
become list operations over an explicit database value, SQLite
transactions become all-or-nothing functions returning Except, the
DashMap rate limiters become association lists, and the two RANDOM()
draws of the sampling query become explicit rank/tiebreak oracles.
Machine integers (i64/i32/u64) are modelled as Int; none of the verified
properties exercises overflow.  The f32 geometry columns (positions,
rotations, rope data) are opaque payload carried by no verified
property and are omitted from the row model.
-/

/-- HTTP status outcomes the embedded handlers can produce. -/
inductive Status where
  | badRequest400
  | notFound404
  | tooMany429
  | internal500
  deriving DecidableEq, Repr

/-- Process configuration (Config::from_env), restricted to the fields the
verified handlers read.  Rate-limit durations are abstract clock ticks. -/
structure Config where
  max_user_structs_saved_per_scene : Int
  max_requested_structs : Int
  post_structure_rate_limit : Nat
  get_structure_rate_limit : Nat
  post_like_rate_limit : Nat
  default_random_limit : Int
  max_scene_length : Nat
  deriving Repr

/-- Row of the structures table (struct Structure in main.rs): DB-managed id
and created_at, attribution, placement key, the likes counter and the
soft-delete flag added by apply_migrations.  Geometry floats omitted. -/
structure Structure where
  id : Int
  created_at : Int
  user_id : Int
  username : String
  map_id : Int
  scene : String
  segment : Int
  prefab : String
  antigrav : Bool
  likes : Int
  deleted : Bool
  deriving DecidableEq, Repr

/-- Client payload of POST /api/v1/structures (struct NewStructure),
geometry floats omitted. -/
structure NewStructure where
  username : String
  map_id : Int
  scene : String
  segment : Int
  prefab : String
  antigrav : Bool
  deriving DecidableEq, Repr

/-- Row of the users table created by apply_migrations: primary key user_id,
moderation flag, and the two like counters. -/
structure UserRow where
  user_id : Int
  upload_banned : Bool
  likes_received : Int
  likes_send : Int
  deriving DecidableEq, Repr

/-- Backing SQLite store: both tables plus the AUTOINCREMENT cursor of the
structures primary key. -/
structure DB where
  structures : List Structure
  users : List UserRow
  next_id : Int
  deriving DecidableEq, Repr

/-- In-process server state: the database plus the three per-identity
rate-limit DashMaps, modelled as (identity, last-action time) lists. -/
structure ServerState where
  db : DB
  post_structure_rate_limiter : List (Int × Nat)
  get_structure_rate_limiter : List (Int × Nat)
  post_like_rate_limiter : List (Int × Nat)
  deriving DecidableEq, Repr

/-- Fresh database as created by the DDL in main: empty tables, first
AUTOINCREMENT id 1. -/
def DB.initial : DB := { structures := [], users := [], next_id := 1 }

/-- Server state at startup: fresh store, empty rate-limit maps. -/
def init_state : ServerState :=
  { db := DB.initial
    post_structure_rate_limiter := []
    get_structure_rate_limiter := []
    post_like_rate_limiter := [] }

/-- Rate-limit gate shared by the three handlers: allowed when the identity
has no recorded action or the elapsed time since the recorded action has
reached the cooldown (in the source: reject when last.elapsed() < limit). -/
def rate_allowed (limiter : List (Int × Nat)) (uid : Int) (now cooldown : Nat) : Bool :=
  match limiter.lookup uid with
  | none => true
  | some last => decide (cooldown ≤ now - last)

/-- DashMap::insert of the action time, replacing any previous entry for the
identity. -/
def limiter_record (limiter : List (Int × Nat)) (uid : Int) (now : Nat) : List (Int × Nat) :=
  (uid, now) :: limiter.filter (fun e => !(e.fst == uid))

/-- INSERT OR IGNORE INTO users (user_id, upload_banned, likes_received,
likes_send) VALUES (?, 0, 0, 0). -/
def ensure_user (users : List UserRow) (uid : Int) : List UserRow :=
  if users.any (fun u => u.user_id == uid) then users
  else users ++ [{ user_id := uid, upload_banned := false, likes_received := 0, likes_send := 0 }]

/-- Shared WHERE user_id = ? AND scene = ? predicate of the retention count
and the pruning subquery (note: no deleted filter in the source). -/
def rows_of (l : List Structure) (uid : Int) (sc : String) : List Structure :=
  l.filter (fun r => r.user_id == uid && r.scene == sc)

/-- SELECT COUNT(*) FROM structures WHERE user_id = ? AND scene = ?. -/
def count_user_scene (db : DB) (uid : Int) (sc : String) : Int :=
  ((rows_of db.structures uid sc).length : Int)

/-- Strict lexicographic comparison on (created_at, id): the ORDER BY
created_at ASC, id ASC key of the pruning subquery. -/
def older (a b : Structure) : Bool :=
  decide (a.created_at < b.created_at ∨ (a.created_at = b.created_at ∧ a.id < b.id))

/-- SELECT id FROM structures WHERE user_id = ? AND scene = ?
ORDER BY created_at ASC, id ASC LIMIT 1. -/
def oldest_id (db : DB) (uid : Int) (sc : String) : Option Int :=
  match rows_of db.structures uid sc with
  | [] => none
  | x :: xs => some ((xs.foldl (fun m r => if older r m then r else m) x).id)

/-- DELETE FROM structures WHERE id = (pruning subquery); no-op when the
subquery returns nothing. -/
def delete_oldest (db : DB) (uid : Int) (sc : String) : DB :=
  match oldest_id db uid sc with
  | none => db
  | some i => { db with structures := db.structures.filter (fun r => !(r.id == i)) }

/-- Column CHECK constraints of the structures DDL that the client payload
can violate: length(username) <= 50, length(scene) <= max_scene_length,
length(prefab) <= 50.  A violating INSERT fails inside the transaction. -/
def insert_checks_ok (cfg : Config) (s : NewStructure) : Bool :=
  decide (s.username.length ≤ 50 ∧ s.scene.length ≤ cfg.max_scene_length ∧ s.prefab.length ≤ 50)

/-- Transaction body of post_structure (steps 0-3): ensure the user row,
insert the structure with store-assigned id/created_at (a CHECK violation
aborts the transaction and surfaces as a 500 storage error), count this
identity's rows in the scene, and delete the oldest when over the cap.
Returns the inserted row as RETURNING * does. -/
def submit_tx (cfg : Config) (db : DB) (uid : Int) (s : NewStructure) (now : Int) :
    Except Status (Structure × DB) :=
  if insert_checks_ok cfg s then
    let row : Structure :=
      { id := db.next_id, created_at := now, user_id := uid, username := s.username,
        map_id := s.map_id, scene := s.scene, segment := s.segment, prefab := s.prefab,
        antigrav := s.antigrav, likes := 0, deleted := false }
    let db2 : DB :=
      { structures := db.structures ++ [row], users := ensure_user db.users uid,
        next_id := db.next_id + 1 }
    let db3 :=
      if cfg.max_user_structs_saved_per_scene < count_user_scene db2 uid s.scene then
        delete_oldest db2 uid s.scene
      else db2
    .ok (row, db3)
  else .error .internal500

/-- Handler of POST /api/v1/structures: rate gate, record, then the
submission transaction; pairs the response with the successor state. -/
def post_structure (cfg : Config) (st : ServerState) (uid : Int) (s : NewStructure) (now : Nat) :
    Except Status Structure × ServerState :=
  if rate_allowed st.post_structure_rate_limiter uid now cfg.post_structure_rate_limit then
    let st1 := { st with
      post_structure_rate_limiter := limiter_record st.post_structure_rate_limiter uid now }
    match submit_tx cfg st1.db uid s (now : Int) with
    | .ok (row, db2) => (.ok row, { st1 with db := db2 })
    | .error e => (.error e, st1)
  else (.error .tooMany429, st)

/-- SELECT user_id FROM structures WHERE id = ? AND deleted = 0
(fetch_optional). -/
def find_owner (db : DB) (sid : Int) : Option Int :=
  ((db.structures.filter (fun r => r.id == sid && !r.deleted)).head?).map (fun r => r.user_id)

/-- Rust i32::clamp(1, 100) applied to the requested like count. -/
def clamp_count (x : Int) : Int := max 1 (min x 100)

/-- UPDATE structures SET likes = likes + ? WHERE id = ? AND deleted = 0. -/
def bump_likes (structs : List Structure) (sid : Int) (c : Int) : List Structure :=
  structs.map (fun r => if r.id == sid && !r.deleted then { r with likes := r.likes + c } else r)

/-- UPDATE users SET likes_send = likes_send + ? WHERE user_id = ?. -/
def bump_likes_send (users : List UserRow) (uid : Int) (c : Int) : List UserRow :=
  users.map (fun u => if u.user_id == uid then { u with likes_send := u.likes_send + c } else u)

/-- UPDATE users SET likes_received = likes_received + ? WHERE user_id = ?. -/
def bump_likes_received (users : List UserRow) (uid : Int) (c : Int) : List UserRow :=
  users.map (fun u => if u.user_id == uid then { u with likes_received := u.likes_received + c } else u)

/-- Transaction body of like_structure: owner lookup excluding deleted (404
when absent), self-like check (400), clamp, ensure both user rows, the
guarded like bump (404 when rows_affected = 0), then the two counter bumps.
Every error path rolls the transaction back, so Except.error carries no new
database. -/
def like_tx (db : DB) (liker sid requested : Int) : Except Status DB :=
  match find_owner db sid with
  | none => .error .notFound404
  | some owner =>
    if owner == liker then .error .badRequest400
    else
      let count := clamp_count requested
      let users1 := ensure_user (ensure_user db.users liker) owner
      if (db.structures.filter (fun r => r.id == sid && !r.deleted)).length == 0 then
        .error .notFound404
      else
        .ok { db with
          structures := bump_likes db.structures sid count,
          users := bump_likes_received (bump_likes_send users1 liker count) owner count }

/-- Handler of POST /api/v1/structures/id/like: rate gate, record,
body.count.unwrap_or(1), then the like transaction. -/
def like_structure (cfg : Config) (st : ServerState) (uid sid : Int)
    (body_count : Option Int) (now : Nat) : Except Status Unit × ServerState :=
  let requested := body_count.getD 1
  if rate_allowed st.post_like_rate_limiter uid now cfg.post_like_rate_limit then
    let st1 := { st with
      post_like_rate_limiter := limiter_record st.post_like_rate_limiter uid now }
    match like_tx st1.db uid sid requested with
    | .ok db2 => (.ok (), { st1 with db := db2 })
    | .error e => (.error e, st1)
  else (.error .tooMany429, st)

/-- Query parameters of GET /api/v1/structures (struct RandomParams). -/
structure RandomParams where
  scene : String
  map_id : Option Int
  limit : Int
  exclude_prefabs : Option String
  deriving DecidableEq, Repr

/-- Comma-splitting of the exclude_prefabs parameter, dropping empty
segments; the split is modelled on the character list, matching Rust's
per-character str::split(',') semantics. -/
def prefabs_to_exclude (p : RandomParams) : List String :=
  ((((p.exclude_prefabs.getD "").data.splitOn ',').map (fun cs => String.mk cs)).filter
    (fun s => !(s == "")))

/-- WHERE clause assembled inside the RankedStructures CTE: scene match,
deleted = 0, optional map_id match, optional prefab NOT IN exclusion (the
NOT IN clause is only emitted for a nonempty exclusion list, which is
equivalent to testing against the empty list). -/
def where_ok (p : RandomParams) (r : Structure) : Bool :=
  r.scene == p.scene && !r.deleted
    && (match p.map_id with | none => true | some m => r.map_id == m)
    && !((prefabs_to_exclude p).contains r.prefab)

/-- Comparison realising ORDER BY diversity_rank, RANDOM(): primary key the
ROW_NUMBER window rank, secondary key a fresh random draw per row; both
randomness sources are passed in as oracles. -/
def sample_le (rank tie : Structure → Nat) (a b : Structure) : Bool :=
  decide (rank a < rank b ∨ (rank a = rank b ∧ tie a ≤ tie b))

/-- Result rows of the sampling query: filter inside the CTE, order by
(diversity_rank, random tiebreak), truncate to the bound LIMIT. -/
def sample_rows (db : DB) (p : RandomParams) (rank tie : Structure → Nat) (limit : Int) :
    List Structure :=
  ((db.structures.filter (where_ok p)).mergeSort (sample_le rank tie)).take limit.toNat

/-- Handler of GET /api/v1/structures: rate gate, record, scene length
validation (400), limit clamp into [0, max_requested_structs], then the
sampling query.  In the source the clamp is i64::clamp(0, max), which
requires 0 <= max; theorems about the clamp carry that hypothesis. -/
def get_random (cfg : Config) (st : ServerState) (uid : Int) (p : RandomParams)
    (now : Nat) (rank tie : Structure → Nat) :
    Except Status (List Structure) × ServerState :=
  if rate_allowed st.get_structure_rate_limiter uid now cfg.get_structure_rate_limit then
    let st1 := { st with
      get_structure_rate_limiter := limiter_record st.get_structure_rate_limiter uid now }
    if cfg.max_scene_length < p.scene.length then (.error .badRequest400, st1)
    else
      let limit := max 0 (min p.limit cfg.max_requested_structs)
      (.ok (sample_rows st1.db p rank tie limit), st1)
  else (.error .tooMany429, st)

/-- Authenticated request to one of the three routes; sampling carries its
randomness oracles. -/
inductive Op where
  | submit (uid : Int) (s : NewStructure) (now : Nat)
  | like (uid sid : Int) (body_count : Option Int) (now : Nat)
  | sample (uid : Int) (p : RandomParams) (now : Nat) (rank tie : Structure → Nat)

/-- State transition of one request (the response is discarded). -/
def apply_op (cfg : Config) (st : ServerState) : Op → ServerState
  | .submit uid s now => (post_structure cfg st uid s now).2
  | .like uid sid c now => (like_structure cfg st uid sid c now).2
  | .sample uid p now rank tie => (get_random cfg st uid p now rank tie).2

/-- Server state reached from startup by a sequence of requests. -/
def run (cfg : Config) (ops : List Op) : ServerState :=
  ops.foldl (apply_op cfg) init_state

/-- Modelled from the spec: the count step of submit as the specification
words it, "Count this identity's non-deleted structures within the same
scene" — to be compared against count_user_scene, which the source actually
computes. -/
def spec_count_non_deleted (db : DB) (uid : Int) (sc : String) : Int :=
  ((db.structures.filter (fun r => r.user_id == uid && r.scene == sc && !r.deleted)).length : Int)

/-- Partition key (owner, segment) of the diversity window function. -/
def part_key (r : Structure) : Int × Int := (r.user_id, r.segment)

/-- Number of distinct (owner, segment) partitions in a row list. -/
def num_partitions (l : List Structure) : Nat := ((l.map part_key).dedup).length

/-- Validity of a rank oracle for ROW_NUMBER() OVER (PARTITION BY user_id,
segment ORDER BY RANDOM()): within every inhabited partition of the list the
ranks are a permutation of 1..n where n is the partition size. -/
def rank_valid (rank : Structure → Nat) (l : List Structure) : Prop :=
  ∀ k ∈ l.map part_key,
    ((l.filter (fun r => part_key r == k)).map rank).Perm
      (List.range' 1 (l.filter (fun r => part_key r == k)).length)

/-- Total likes recorded on rows with the given structure id. -/
def likes_total (structs : List Structure) (sid : Int) : Int :=
  ((structs.filter (fun r => r.id == sid)).map (fun r => r.likes)).sum

/-- Total likes_send recorded on user rows with the given identity. -/
def likes_send_total (users : List UserRow) (uid : Int) : Int :=
  ((users.filter (fun u => u.user_id == uid)).map (fun u => u.likes_send)).sum

/-- Total likes_received recorded on user rows with the given identity. -/
def likes_received_total (users : List UserRow) (uid : Int) : Int :=
  ((users.filter (fun u => u.user_id == uid)).map (fun u => u.likes_received)).sum

/-! Helper lemmas: membership characterizations and the pruning minimum. -/

theorem mem_rows_of {l : List Structure} {uid : Int} {sc : String} {r : Structure} :
    r ∈ rows_of l uid sc ↔ r ∈ l ∧ r.user_id = uid ∧ r.scene = sc := by
  simp [rows_of, List.mem_filter, and_assoc]

theorem lookup_limiter_record (limiter : List (Int × Nat)) (uid : Int) (now : Nat) :
    (limiter_record limiter uid now).lookup uid = some now := by
  simp [limiter_record, List.lookup]

theorem older_irrefl (a : Structure) : older a a = false := by
  simp [older]

theorem older_true_false {a b : Structure} (h : older a b = true) : older b a = false := by
  simp only [older, decide_eq_true_eq, decide_eq_false_iff_not] at *
  omega

theorem not_older_trans {a b c : Structure} (hba : older b a = false)
    (hcb : older c b = false) : older c a = false := by
  simp only [older, decide_eq_false_iff_not] at *
  omega

theorem foldl_min_spec (x : Structure) (xs : List Structure) :
    xs.foldl (fun m r => if older r m then r else m) x ∈ x :: xs ∧
      ∀ y ∈ x :: xs, older y (xs.foldl (fun m r => if older r m then r else m) x) = false := by
  induction xs generalizing x with
  | nil =>
    refine ⟨List.mem_singleton.mpr rfl, ?_⟩
    intro y hy
    rw [List.mem_singleton] at hy
    subst hy
    exact older_irrefl y
  | cons r rs ih =>
    simp only [List.foldl_cons]
    obtain ⟨hmem, hmin⟩ := ih (if older r x then r else x)
    have hhead := hmin _ (List.mem_cons_self _ _)
    by_cases hrx : older r x = true
    · rw [if_pos hrx] at hmem hmin hhead ⊢
      constructor
      · rcases List.mem_cons.mp hmem with h | h
        · rw [h]; exact List.mem_cons_of_mem _ (List.mem_cons_self _ _)
        · exact List.mem_cons_of_mem _ (List.mem_cons_of_mem _ h)
      · intro y hy
        rcases List.mem_cons.mp hy with h | hy2
        · subst h
          exact not_older_trans hhead (older_true_false hrx)
        rcases List.mem_cons.mp hy2 with h | h
        · subst h; exact hhead
        · exact hmin y (List.mem_cons_of_mem _ h)
    · have hxr : older r x = false := by simpa using hrx
      rw [if_neg hrx] at hmem hmin hhead ⊢
      constructor
      · rcases List.mem_cons.mp hmem with h | h
        · rw [h]; exact List.mem_cons_self _ _
        · exact List.mem_cons_of_mem _ (List.mem_cons_of_mem _ h)
      · intro y hy
        rcases List.mem_cons.mp hy with h | hy2
        · subst h; exact hhead
        rcases List.mem_cons.mp hy2 with h | h
        · subst h
          exact not_older_trans hhead hxr
        · exact hmin y (List.mem_cons_of_mem _ h)

theorem oldest_id_spec {db : DB} {uid : Int} {sc : String} {i : Int}
    (h : oldest_id db uid sc = some i) :
    ∃ m ∈ rows_of db.structures uid sc, m.id = i ∧
      ∀ y ∈ rows_of db.structures uid sc, older y m = false := by
  unfold oldest_id at h
  rcases hrows : rows_of db.structures uid sc with _ | ⟨x, xs⟩ <;> rw [hrows] at h
  · simp at h
  · simp only [Option.some.injEq] at h
    refine ⟨xs.foldl (fun m r => if older r m then r else m) x, ?_, h, ?_⟩
    · exact (foldl_min_spec x xs).1
    · exact (foldl_min_spec x xs).2

/-! Helper lemmas: unique-key filtering and counter totals. -/

theorem filter_key_eq_singleton {α β : Type} [BEq β] [LawfulBEq β] (f : α → β) {l : List α}
    (hn : (l.map f).Nodup) {a : α} (ha : a ∈ l) :
    l.filter (fun x => f x == f a) = [a] := by
  induction l with
  | nil => cases ha
  | cons b t ih =>
    rw [List.map_cons, List.nodup_cons] at hn
    rcases List.mem_cons.mp ha with h | h
    · subst h
      have ht : t.filter (fun x => f x == f a) = [] := by
        apply List.filter_eq_nil_iff.mpr
        intro x hx
        simp only [beq_iff_eq]
        intro hfx
        exact hn.1 (hfx ▸ List.mem_map_of_mem f hx)
      simp [List.filter_cons, ht]
    · have hba : (f b == f a) = false := by
        simp only [beq_eq_false_iff_ne, ne_eq]
        intro hfb
        exact hn.1 (hfb ▸ List.mem_map_of_mem f h)
      simp [List.filter_cons, hba, ih hn.2 h]

theorem ensure_user_keys_nodup {users : List UserRow} {uid : Int}
    (hn : (users.map (fun u => u.user_id)).Nodup) :
    ((ensure_user users uid).map (fun u => u.user_id)).Nodup := by
  unfold ensure_user
  by_cases h : users.any (fun u => u.user_id == uid) = true
  · simpa [h] using hn
  · rw [if_neg h]
    rw [List.map_append, List.nodup_append]
    refine ⟨hn, by simp, ?_⟩
    intro k hk
    simp only [List.mem_map] at hk
    obtain ⟨u, hu, hku⟩ := hk
    simp only [List.any_eq_true, beq_iff_eq] at h
    push_neg at h
    simp only [List.map_cons, List.map_nil, List.mem_cons, List.not_mem_nil, or_false]
    intro hkk
    exact h u hu (hku.trans hkk)

theorem ensure_user_exists (users : List UserRow) (uid : Int) :
    ∃ u ∈ ensure_user users uid, u.user_id = uid := by
  unfold ensure_user
  by_cases h : users.any (fun u => u.user_id == uid) = true
  · rw [if_pos h]
    simp only [List.any_eq_true, beq_iff_eq] at h
    exact h
  · rw [if_neg h]
    exact ⟨_, List.mem_append_right _ (List.mem_singleton.mpr rfl), rfl⟩

theorem user_filter_key_singleton {users : List UserRow}
    (hn : (users.map (fun u => u.user_id)).Nodup) {u : UserRow} (hu : u ∈ users) :
    users.filter (fun v => v.user_id == u.user_id) = [u] := by
  simpa using filter_key_eq_singleton (fun v => v.user_id) hn hu

theorem struct_filter_key_singleton {l : List Structure}
    (hn : (l.map (fun r => r.id)).Nodup) {a : Structure} (ha : a ∈ l) :
    l.filter (fun r => r.id == a.id) = [a] := by
  simpa using filter_key_eq_singleton (fun r => r.id) hn ha

theorem ensure_filter_len_one {users : List UserRow} (uid : Int)
    (hn : (users.map (fun u => u.user_id)).Nodup) :
    ((ensure_user users uid).filter (fun u => u.user_id == uid)).length = 1 := by
  obtain ⟨u, hu, huid⟩ := ensure_user_exists users uid
  have hn2 := @ensure_user_keys_nodup users uid hn
  have hpred : (fun v : UserRow => v.user_id == uid) = (fun v : UserRow => v.user_id == u.user_id) := by
    funext v; rw [huid]
  rw [hpred, user_filter_key_singleton hn2 hu]
  rfl

theorem likes_send_total_cons (u : UserRow) (us : List UserRow) (uid : Int) :
    likes_send_total (u :: us) uid
      = (if u.user_id = uid then u.likes_send else 0) + likes_send_total us uid := by
  by_cases h : u.user_id = uid <;> simp [likes_send_total, List.filter_cons, h]

theorem likes_received_total_cons (u : UserRow) (us : List UserRow) (uid : Int) :
    likes_received_total (u :: us) uid
      = (if u.user_id = uid then u.likes_received else 0) + likes_received_total us uid := by
  by_cases h : u.user_id = uid <;> simp [likes_received_total, List.filter_cons, h]

theorem likes_total_cons (r : Structure) (rs : List Structure) (sid : Int) :
    likes_total (r :: rs) sid
      = (if r.id = sid then r.likes else 0) + likes_total rs sid := by
  by_cases h : r.id = sid <;> simp [likes_total, List.filter_cons, h]

theorem likes_send_total_ensure (users : List UserRow) (v uid : Int) :
    likes_send_total (ensure_user users v) uid = likes_send_total users uid := by
  unfold ensure_user
  by_cases h : users.any (fun u => u.user_id == v) = true
  · rw [if_pos h]
  · rw [if_neg h]
    unfold likes_send_total
    rw [List.filter_append, List.map_append, List.sum_append]
    by_cases hv : v = uid <;> simp [List.filter_cons, hv]

theorem likes_received_total_ensure (users : List UserRow) (v uid : Int) :
    likes_received_total (ensure_user users v) uid = likes_received_total users uid := by
  unfold ensure_user
  by_cases h : users.any (fun u => u.user_id == v) = true
  · rw [if_pos h]
  · rw [if_neg h]
    unfold likes_received_total
    rw [List.filter_append, List.map_append, List.sum_append]
    by_cases hv : v = uid <;> simp [List.filter_cons, hv]

theorem bump_likes_send_cons (u : UserRow) (us : List UserRow) (uid c : Int) :
    bump_likes_send (u :: us) uid c
      = (if u.user_id = uid then { u with likes_send := u.likes_send + c } else u)
        :: bump_likes_send us uid c := by
  by_cases h : u.user_id = uid <;> simp [bump_likes_send, h]

theorem bump_likes_received_cons (u : UserRow) (us : List UserRow) (uid c : Int) :
    bump_likes_received (u :: us) uid c
      = (if u.user_id = uid then { u with likes_received := u.likes_received + c } else u)
        :: bump_likes_received us uid c := by
  by_cases h : u.user_id = uid <;> simp [bump_likes_received, h]

theorem bump_likes_cons (r : Structure) (rs : List Structure) (sid c : Int) :
    bump_likes (r :: rs) sid c
      = (if r.id = sid ∧ r.deleted = false then { r with likes := r.likes + c } else r)
        :: bump_likes rs sid c := by
  by_cases h : r.id = sid <;> by_cases h2 : r.deleted <;> simp [bump_likes, h, h2]

theorem likes_send_total_bump_send (users : List UserRow) (uid c : Int) :
    likes_send_total (bump_likes_send users uid c) uid
      = likes_send_total users uid
        + c * ((users.filter (fun u => u.user_id == uid)).length : Int) := by
  induction users with
  | nil => simp [likes_send_total, bump_likes_send]
  | cons u us ih =>
    rw [bump_likes_send_cons, likes_send_total_cons, likes_send_total_cons u us]
    by_cases h : u.user_id = uid
    · simp only [if_pos h, h, if_pos rfl, if_true, List.filter_cons, beq_iff_eq,
        List.length_cons]
      rw [ih]
      push_cast
      ring
    · simp only [if_neg h, List.filter_cons, beq_iff_eq, h, if_false]
      rw [ih]
      ring

theorem likes_received_total_bump_received (users : List UserRow) (uid c : Int) :
    likes_received_total (bump_likes_received users uid c) uid
      = likes_received_total users uid
        + c * ((users.filter (fun u => u.user_id == uid)).length : Int) := by
  induction users with
  | nil => simp [likes_received_total, bump_likes_received]
  | cons u us ih =>
    rw [bump_likes_received_cons, likes_received_total_cons, likes_received_total_cons u us]
    by_cases h : u.user_id = uid
    · simp only [if_pos h, h, if_pos rfl, if_true, List.filter_cons, beq_iff_eq,
        List.length_cons]
      rw [ih]
      push_cast
      ring
    · simp only [if_neg h, List.filter_cons, beq_iff_eq, h, if_false]
      rw [ih]
      ring

theorem likes_send_total_bump_received (users : List UserRow) (v uid c : Int) :
    likes_send_total (bump_likes_received users v c) uid = likes_send_total users uid := by
  induction users with
  | nil => rfl
  | cons u us ih =>
    rw [bump_likes_received_cons, likes_send_total_cons, likes_send_total_cons u us, ih]
    by_cases h : u.user_id = v <;> simp [h]

theorem likes_received_total_bump_send (users : List UserRow) (v uid c : Int) :
    likes_received_total (bump_likes_send users v c) uid = likes_received_total users uid := by
  induction users with
  | nil => rfl
  | cons u us ih =>
    rw [bump_likes_send_cons, likes_received_total_cons, likes_received_total_cons u us, ih]
    by_cases h : u.user_id = v <;> simp [h]

theorem likes_total_bump (structs : List Structure) (sid c : Int) :
    likes_total (bump_likes structs sid c) sid
      = likes_total structs sid
        + c * ((structs.filter (fun r => r.id == sid && !r.deleted)).length : Int) := by
  induction structs with
  | nil => simp [likes_total, bump_likes]
  | cons r rs ih =>
    rw [bump_likes_cons, likes_total_cons, likes_total_cons r rs]
    by_cases h : r.id = sid <;> by_cases h2 : r.deleted = true
    · rw [if_neg (fun hc : r.id = sid ∧ r.deleted = false => absurd hc.2 (by simp [h2]))]
      have hf : (r.id == sid && !r.deleted) = false := by simp [h2]
      simp only [List.filter_cons, hf, Bool.false_eq_true, if_false]
      rw [ih]
      ring
    · have h2f : r.deleted = false := by simpa using h2
      rw [if_pos (show r.id = sid ∧ r.deleted = false from ⟨h, h2f⟩)]
      have ht : (r.id == sid && !r.deleted) = true := by simp [h, h2f]
      simp only [List.filter_cons, ht, if_true, List.length_cons]
      have hid : ({ r with likes := r.likes + c } : Structure).id = r.id := rfl
      rw [hid, if_pos h, if_pos h, ih]
      push_cast
      ring
    all_goals (
      rw [if_neg (fun hc : r.id = sid ∧ r.deleted = false => absurd hc.1 h)]
      have hf : (r.id == sid && !r.deleted) = false := by simp [h]
      simp only [List.filter_cons, hf, Bool.false_eq_true, if_false]
      rw [ih]
      ring)

/-! Handler shape lemmas: how each handler relates its response to the
database transition. -/

theorem get_random_db (cfg : Config) (st : ServerState) (uid : Int) (p : RandomParams)
    (now : Nat) (rank tie : Structure → Nat) :
    (get_random cfg st uid p now rank tie).2.db = st.db := by
  unfold get_random
  split
  · split <;> rfl
  · rfl

theorem like_error_db {cfg : Config} {st : ServerState} {uid sid : Int}
    {c : Option Int} {now : Nat} {e : Status}
    (h : (like_structure cfg st uid sid c now).1 = .error e) :
    (like_structure cfg st uid sid c now).2.db = st.db := by
  by_cases hg : rate_allowed st.post_like_rate_limiter uid now cfg.post_like_rate_limit = true
  · rcases hf : find_owner st.db sid with _ | owner
    · simp [like_structure, like_tx, hg, hf]
    · by_cases ho : (owner == uid) = true
      · simp [like_structure, like_tx, hg, hf, ho]
      · by_cases ha :
          ((st.db.structures.filter (fun r => r.id == sid && !r.deleted)).length == 0) = true
        · simp [like_structure, like_tx, hg, hf, ho, ha]
        · exfalso
          simp [like_structure, like_tx, hg, hf, ho, ha] at h
  · simp [like_structure, hg]

theorem like_ok_shape {cfg : Config} {st : ServerState} {uid sid : Int}
    {c : Option Int} {now : Nat}
    (h : (like_structure cfg st uid sid c now).1 = .ok ()) :
    rate_allowed st.post_like_rate_limiter uid now cfg.post_like_rate_limit = true ∧
      ∃ owner, find_owner st.db sid = some owner ∧ owner ≠ uid ∧
        (st.db.structures.filter (fun r => r.id == sid && !r.deleted)).length ≠ 0 ∧
        (like_structure cfg st uid sid c now).2.db =
          { st.db with
            structures := bump_likes st.db.structures sid (clamp_count (c.getD 1)),
            users := bump_likes_received
              (bump_likes_send (ensure_user (ensure_user st.db.users uid) owner) uid
                (clamp_count (c.getD 1)))
              owner (clamp_count (c.getD 1)) } := by
  by_cases hg : rate_allowed st.post_like_rate_limiter uid now cfg.post_like_rate_limit = true
  · refine ⟨hg, ?_⟩
    rcases hf : find_owner st.db sid with _ | owner
    · simp [like_structure, like_tx, hg, hf] at h
    · by_cases ho : (owner == uid) = true
      · simp [like_structure, like_tx, hg, hf, ho] at h
      · by_cases ha :
          ((st.db.structures.filter (fun r => r.id == sid && !r.deleted)).length == 0) = true
        · simp [like_structure, like_tx, hg, hf, ho, ha] at h
        · refine ⟨owner, rfl, by simpa using ho, by simpa using ha, ?_⟩
          simp [like_structure, like_tx, hg, hf, ho, ha]
  · simp [like_structure, hg] at h

theorem post_error_db {cfg : Config} {st : ServerState} {uid : Int}
    {s : NewStructure} {now : Nat} {e : Status}
    (h : (post_structure cfg st uid s now).1 = .error e) :
    (post_structure cfg st uid s now).2.db = st.db := by
  by_cases hg : rate_allowed st.post_structure_rate_limiter uid now cfg.post_structure_rate_limit = true
  · by_cases hc : insert_checks_ok cfg s = true
    · exfalso
      simp [post_structure, submit_tx, hg, hc] at h
    · simp [post_structure, submit_tx, hg, hc]
  · simp [post_structure, hg]

theorem post_ok_shape {cfg : Config} {st : ServerState} {uid : Int}
    {s : NewStructure} {now : Nat} {row : Structure}
    (h : (post_structure cfg st uid s now).1 = .ok row) :
    rate_allowed st.post_structure_rate_limiter uid now cfg.post_structure_rate_limit = true ∧
      submit_tx cfg st.db uid s (now : Int) = .ok (row, (post_structure cfg st uid s now).2.db) := by
  by_cases hg : rate_allowed st.post_structure_rate_limiter uid now cfg.post_structure_rate_limit = true
  · refine ⟨hg, ?_⟩
    by_cases hc : insert_checks_ok cfg s = true
    · simp only [post_structure, hg, if_true, submit_tx, hc] at h ⊢
      simp_all
    · simp [post_structure, submit_tx, hg, hc] at h
  · simp [post_structure, hg] at h

theorem submit_tx_ok_shape {cfg : Config} {db : DB} {uid : Int} {s : NewStructure}
    {now : Int} {row : Structure} {db3 : DB}
    (h : submit_tx cfg db uid s now = .ok (row, db3)) :
    insert_checks_ok cfg s = true ∧
      row = { id := db.next_id, created_at := now, user_id := uid, username := s.username,
              map_id := s.map_id, scene := s.scene, segment := s.segment, prefab := s.prefab,
              antigrav := s.antigrav, likes := 0, deleted := false } ∧
      db3 =
        (if cfg.max_user_structs_saved_per_scene <
            count_user_scene
              { structures := db.structures ++ [row], users := ensure_user db.users uid,
                next_id := db.next_id + 1 } uid s.scene then
          delete_oldest
            { structures := db.structures ++ [row], users := ensure_user db.users uid,
              next_id := db.next_id + 1 } uid s.scene
        else
          { structures := db.structures ++ [row], users := ensure_user db.users uid,
            next_id := db.next_id + 1 }) := by
  by_cases hc : insert_checks_ok cfg s = true
  · simp only [submit_tx, hc, if_true] at h
    obtain ⟨hrow, hdb⟩ := Prod.mk.injEq .. ▸ Except.ok.injEq .. ▸ h
    refine ⟨hc, hrow.symm, ?_⟩
    rw [← hdb, ← hrow]
  · simp [submit_tx, hc] at h

/-! Structural lemmas about the list operations used by the transactions. -/

theorem bump_likes_map_id (l : List Structure) (sid c : Int) :
    (bump_likes l sid c).map (fun r => r.id) = l.map (fun r => r.id) := by
  unfold bump_likes
  rw [List.map_map]
  apply List.map_congr_left
  intro r _
  simp only [Function.comp_apply]
  split <;> rfl

theorem mem_bump_likes {l : List Structure} {sid c : Int} {r : Structure}
    (h : r ∈ bump_likes l sid c) :
    ∃ r0 ∈ l, r.deleted = r0.deleted ∧ r.user_id = r0.user_id ∧ r.scene = r0.scene ∧
      r.id = r0.id := by
  unfold bump_likes at h
  obtain ⟨r0, hr0, heq⟩ := List.mem_map.mp h
  refine ⟨r0, hr0, ?_⟩
  by_cases hc : (r0.id == sid && !r0.deleted) = true <;> simp [hc] at heq <;> subst heq <;>
    simp

theorem rows_of_append (l1 l2 : List Structure) (uid : Int) (sc : String) :
    rows_of (l1 ++ l2) uid sc = rows_of l1 uid sc ++ rows_of l2 uid sc := by
  simp [rows_of, List.filter_append]

theorem rows_of_filter (l : List Structure) (q : Structure → Bool) (uid : Int) (sc : String) :
    rows_of (l.filter q) uid sc = (rows_of l uid sc).filter q := by
  unfold rows_of
  rw [List.filter_filter, List.filter_filter]
  apply List.filter_congr
  intro r _
  exact Bool.and_comm _ _

theorem rows_of_bump_len (l : List Structure) (sid c : Int) (uid : Int) (sc : String) :
    (rows_of (bump_likes l sid c) uid sc).length = (rows_of l uid sc).length := by
  unfold rows_of bump_likes
  rw [List.filter_map, List.length_map]
  congr 1
  apply List.filter_congr
  intro r _
  simp only [Function.comp_apply]
  split <;> rfl

theorem bump_send_map_key (users : List UserRow) (uid c : Int) :
    (bump_likes_send users uid c).map (fun u => u.user_id) = users.map (fun u => u.user_id) := by
  unfold bump_likes_send
  rw [List.map_map]
  apply List.map_congr_left
  intro u _
  simp only [Function.comp_apply]
  split <;> rfl

theorem bump_received_map_key (users : List UserRow) (uid c : Int) :
    (bump_likes_received users uid c).map (fun u => u.user_id)
      = users.map (fun u => u.user_id) := by
  unfold bump_likes_received
  rw [List.map_map]
  apply List.map_congr_left
  intro u _
  simp only [Function.comp_apply]
  split <;> rfl

/-- Reachability invariant of the store: no row is soft-deleted, structure ids
are unique and below the AUTOINCREMENT cursor, user ids are unique, and the
per-identity per-scene row count respects the retention cap. -/
structure StoreInv (cfg : Config) (st : ServerState) : Prop where
  deleted_false : ∀ r ∈ st.db.structures, r.deleted = false
  ids_nodup : (st.db.structures.map (fun r => r.id)).Nodup
  ids_lt : ∀ r ∈ st.db.structures, r.id < st.db.next_id
  users_nodup : (st.db.users.map (fun u => u.user_id)).Nodup
  cap : 0 ≤ cfg.max_user_structs_saved_per_scene →
    ∀ uid sc, count_user_scene st.db uid sc ≤ cfg.max_user_structs_saved_per_scene

theorem inv_of_db_eq {cfg : Config} {st st2 : ServerState} (hdb : st2.db = st.db)
    (h : StoreInv cfg st) : StoreInv cfg st2 := by
  refine ⟨?_, ?_, ?_, ?_, ?_⟩ <;> rw [hdb]
  · exact h.deleted_false
  · exact h.ids_nodup
  · exact h.ids_lt
  · exact h.users_nodup
  · intro h0 uid sc
    have := h.cap h0 uid sc
    simpa [count_user_scene, hdb] using this

theorem inv_init (cfg : Config) : StoreInv cfg init_state := by
  refine ⟨?_, ?_, ?_, ?_, ?_⟩ <;> simp [init_state, DB.initial, count_user_scene, rows_of]

theorem oldest_id_some {db : DB} {uid : Int} {sc : String}
    (h : rows_of db.structures uid sc ≠ []) : ∃ i, oldest_id db uid sc = some i := by
  unfold oldest_id
  rcases hrows : rows_of db.structures uid sc with _ | ⟨x, xs⟩
  · exact absurd hrows h
  · exact ⟨_, rfl⟩

theorem rows_of_single (row : Structure) (uid : Int) (sc : String) :
    rows_of [row] uid sc
      = if (row.user_id == uid && row.scene == sc) = true then [row] else [] := by
  simp only [rows_of, List.filter]
  rcases hb : row.user_id == uid && row.scene == sc <;> simp

theorem storeinv_like {cfg : Config} {st : ServerState} {uid sid : Int}
    {c : Option Int} {now : Nat} (h : StoreInv cfg st) :
    StoreInv cfg (like_structure cfg st uid sid c now).2 := by
  rcases hres : (like_structure cfg st uid sid c now).1 with e | u
  · exact inv_of_db_eq (like_error_db hres) h
  · cases u
    obtain ⟨hg, owner, hf, hne, haff, hdb⟩ := like_ok_shape hres
    constructor
    · intro r hr
      rw [hdb] at hr
      obtain ⟨r0, hr0, hdel, -, -, -⟩ := mem_bump_likes hr
      rw [hdel]
      exact h.deleted_false r0 hr0
    · rw [hdb]
      simpa [bump_likes_map_id] using h.ids_nodup
    · intro r hr
      rw [hdb] at hr
      simp only at hr
      obtain ⟨r0, hr0, -, -, -, hid⟩ := mem_bump_likes hr
      rw [hdb]
      simpa [hid] using h.ids_lt r0 hr0
    · rw [hdb]
      simp only
      rw [bump_received_map_key, bump_send_map_key]
      exact ensure_user_keys_nodup (ensure_user_keys_nodup h.users_nodup)
    · intro h0 uid2 sc
      have := h.cap h0 uid2 sc
      simp only [count_user_scene, hdb] at *
      rw [rows_of_bump_len]
      exact this

theorem storeinv_post {cfg : Config} {st : ServerState} {uid : Int} {s : NewStructure}
    {now : Nat} (h : StoreInv cfg st) :
    StoreInv cfg (post_structure cfg st uid s now).2 := by
  rcases hres : (post_structure cfg st uid s now).1 with e | row
  · exact inv_of_db_eq (post_error_db hres) h
  · obtain ⟨hg, htx⟩ := post_ok_shape hres
    obtain ⟨hc, hrow, hdb3⟩ := submit_tx_ok_shape htx
    have hrow_id : row.id = st.db.next_id := by rw [hrow]
    have hrow_del : row.deleted = false := by rw [hrow]
    have hrow_uid : row.user_id = uid := by rw [hrow]
    have hrow_sc : row.scene = s.scene := by rw [hrow]
    have hdel2 : ∀ r ∈ st.db.structures ++ [row], r.deleted = false := by
      intro r hr
      rcases List.mem_append.mp hr with hr | hr
      · exact h.deleted_false r hr
      · rw [List.mem_singleton.mp hr]; exact hrow_del
    have hnodup2 : ((st.db.structures ++ [row]).map (fun r => r.id)).Nodup := by
      rw [List.map_append, List.nodup_append]
      refine ⟨h.ids_nodup, by simp, ?_⟩
      intro x hx
      obtain ⟨r0, hr0, hid0⟩ := List.mem_map.mp hx
      have hlt := h.ids_lt r0 hr0
      simp only [List.map_cons, List.map_nil, List.mem_cons, List.not_mem_nil, or_false]
      intro hxe
      rw [hxe, hrow_id] at hid0
      rw [hid0] at hlt
      exact absurd hlt (lt_irrefl _)
    have hlt2 : ∀ r ∈ st.db.structures ++ [row], r.id < st.db.next_id + 1 := by
      intro r hr
      rcases List.mem_append.mp hr with hr | hr
      · have := h.ids_lt r hr; omega
      · rw [List.mem_singleton.mp hr, hrow_id]; omega
    have husers2 : ((ensure_user st.db.users uid).map (fun u => u.user_id)).Nodup :=
      ensure_user_keys_nodup h.users_nodup
    have hrows2 : ∀ uid2 sc, rows_of (st.db.structures ++ [row]) uid2 sc
        = rows_of st.db.structures uid2 sc
          ++ (if (row.user_id == uid2 && row.scene == sc) = true then [row] else []) := by
      intro uid2 sc
      rw [rows_of_append, rows_of_single]
    by_cases hover : cfg.max_user_structs_saved_per_scene <
        count_user_scene
          { structures := st.db.structures ++ [row], users := ensure_user st.db.users uid,
            next_id := st.db.next_id + 1 } uid s.scene
    · rw [if_pos hover] at hdb3
      have hrowmem : row ∈ rows_of (st.db.structures ++ [row]) uid s.scene := by
        rw [hrows2]
        have : (row.user_id == uid && row.scene == s.scene) = true := by
          simp [hrow_uid, hrow_sc]
        rw [this, if_pos rfl]
        exact List.mem_append_right _ (List.mem_singleton.mpr rfl)
      obtain ⟨i, hi⟩ := @oldest_id_some
          { structures := st.db.structures ++ [row], users := ensure_user st.db.users uid,
            next_id := st.db.next_id + 1 } uid s.scene (List.ne_nil_of_mem hrowmem)
      unfold delete_oldest at hdb3
      rw [hi] at hdb3
      simp only at hdb3
      obtain ⟨m, hm, hmi, -⟩ := oldest_id_spec hi
      constructor
      · intro r hr
        rw [hdb3] at hr
        exact hdel2 r (List.mem_of_mem_filter hr)
      · rw [hdb3]
        exact ((List.filter_sublist _).map _).nodup hnodup2
      · intro r hr
        rw [hdb3] at hr ⊢
        exact hlt2 r (List.mem_of_mem_filter hr)
      · rw [hdb3]
        exact husers2
      · intro h0 uid2 sc
        have hcap := h.cap h0 uid2 sc
        rw [hdb3]
        simp only [count_user_scene] at hcap ⊢
        rw [rows_of_filter]
        by_cases hp : (row.user_id == uid2 && row.scene == sc) = true
        · have hup : uid2 = uid := by
            have := (Bool.and_elim_left hp)
            rw [hrow_uid] at this
            exact (beq_iff_eq.mp this).symm
          have hsp : sc = s.scene := by
            have := (Bool.and_elim_right hp)
            rw [hrow_sc] at this
            exact (beq_iff_eq.mp this).symm
          subst hup hsp
          have hlt3 : ((rows_of (st.db.structures ++ [row]) uid2 s.scene).filter
              (fun r => !(r.id == i))).length
              < (rows_of (st.db.structures ++ [row]) uid2 s.scene).length :=
            List.length_filter_lt_length_iff_exists.mpr ⟨m, hm, by simp [hmi]⟩
          have hlen2 : (rows_of (st.db.structures ++ [row]) uid2 s.scene).length
              = (rows_of st.db.structures uid2 s.scene).length + 1 := by
            rw [hrows2, if_pos hp]
            simp
          omega
        · have hlen2 : rows_of (st.db.structures ++ [row]) uid2 sc
              = rows_of st.db.structures uid2 sc := by
            rw [hrows2, if_neg hp, List.append_nil]
          rw [hlen2]
          have := List.length_filter_le (fun r => !(r.id == i)) (rows_of st.db.structures uid2 sc)
          omega
    · rw [if_neg hover] at hdb3
      constructor
      · intro r hr
        rw [hdb3] at hr
        exact hdel2 r hr
      · rw [hdb3]
        exact hnodup2
      · intro r hr
        rw [hdb3] at hr ⊢
        exact hlt2 r hr
      · rw [hdb3]
        exact husers2
      · intro h0 uid2 sc
        have hcap := h.cap h0 uid2 sc
        rw [hdb3]
        simp only [count_user_scene] at hcap hover ⊢
        by_cases hp : (row.user_id == uid2 && row.scene == sc) = true
        · have hup : uid2 = uid := by
            have := (Bool.and_elim_left hp)
            rw [hrow_uid] at this
            exact (beq_iff_eq.mp this).symm
          have hsp : sc = s.scene := by
            have := (Bool.and_elim_right hp)
            rw [hrow_sc] at this
            exact (beq_iff_eq.mp this).symm
          subst hup hsp
          exact not_lt.mp hover
        · rw [hrows2, if_neg hp, List.append_nil]
          exact hcap

theorem storeinv_get {cfg : Config} {st : ServerState} {uid : Int} {p : RandomParams}
    {now : Nat} {rank tie : Structure → Nat} (h : StoreInv cfg st) :
    StoreInv cfg (get_random cfg st uid p now rank tie).2 :=
  inv_of_db_eq (get_random_db cfg st uid p now rank tie) h

theorem storeinv_step {cfg : Config} {st : ServerState} (op : Op) (h : StoreInv cfg st) :
    StoreInv cfg (apply_op cfg st op) := by
  cases op with
  | submit uid s now => exact storeinv_post h
  | like uid sid c now => exact storeinv_like h
  | sample uid p now rank tie => exact storeinv_get h

theorem storeinv_run (cfg : Config) (ops : List Op) : StoreInv cfg (run cfg ops) := by
  suffices hgen : ∀ st, StoreInv cfg st → StoreInv cfg (ops.foldl (apply_op cfg) st) by
    exact hgen init_state (inv_init cfg)
  induction ops with
  | nil => intro st h; exact h
  | cons op t ih =>
    intro st h
    exact ih (apply_op cfg st op) (storeinv_step op h)

/-! Claim theorems. -/

/-- C10: in every reachable state every structure row has deleted = false —
submission inserts rows with the flag false, no operation sets it to true,
and retention pruning is a hard DELETE — so the deleted = 0 filters used by
the sampling query and the like transaction never exclude any row this
program produced. -/
theorem C10_no_soft_deleted_rows (cfg : Config) (ops : List Op) :
    (∀ r ∈ (run cfg ops).db.structures, r.deleted = false) ∧
      (run cfg ops).db.structures.filter (fun r => !r.deleted)
        = (run cfg ops).db.structures := by
  have h := (storeinv_run cfg ops).deleted_false
  refine ⟨h, ?_⟩
  rw [List.filter_eq_self]
  intro r hr
  simp [h r hr]

/-- Store state exhibiting a soft-deleted row, as the schema permits: the
deleted column exists and the retention count of submit does not filter on
it. -/
def deleted_row : Structure :=
  { id := 1, created_at := 0, user_id := 1, username := "u", map_id := 1,
    scene := "s", segment := 0, prefab := "p", antigrav := false, likes := 0,
    deleted := true }

/-- Store state holding only that soft-deleted row. -/
def db_with_deleted : DB :=
  { structures := [deleted_row], users := [], next_id := 2 }

/-- C2 counterexample: on a store state with one soft-deleted row, the value
the source compares against the cap (count_user_scene, the COUNT(*) without a
deleted filter) differs from the number of non-deleted rows, refuting the
claim for every store state. -/
theorem C2_counterexample :
    count_user_scene db_with_deleted 1 "s" ≠ spec_count_non_deleted db_with_deleted 1 "s" := by
  have h1 : count_user_scene db_with_deleted 1 "s" = 1 := rfl
  have h2 : spec_count_non_deleted db_with_deleted 1 "s" = 0 := rfl
  rw [h1, h2]
  decide

/-- C2 amended: the retention-check count of submit counts this identity's
rows in the scene regardless of the deleted flag; on every reachable store
state this coincides with the number of rows with that owner, that scene and
deleted = false, because no reachable row is soft-deleted. -/
theorem C2_amended_count (cfg : Config) (ops : List Op) (uid : Int) (sc : String) :
    count_user_scene (run cfg ops).db uid sc = spec_count_non_deleted (run cfg ops).db uid sc := by
  have h := (storeinv_run cfg ops).deleted_false
  unfold count_user_scene spec_count_non_deleted rows_of
  congr 2
  apply List.filter_congr
  intro r hr
  simp [h r hr]

theorem find_owner_eq_none {db : DB} {sid : Int} :
    find_owner db sid = none ↔ ∀ r ∈ db.structures, ¬(r.id = sid ∧ r.deleted = false) := by
  unfold find_owner
  rw [Option.map_eq_none', List.head?_eq_none_iff, List.filter_eq_nil_iff]
  constructor
  · intro h r hr hc
    exact h r hr (by simp [hc.1, hc.2])
  · intro h r hr
    simp only [Bool.and_eq_true, beq_iff_eq, Bool.not_eq_true', not_and]
    intro h1 h2
    exact h r hr ⟨h1, h2⟩

/-- Demonstration configuration with the source defaults. -/
def cfg_demo : Config :=
  { max_user_structs_saved_per_scene := 2, max_requested_structs := 400,
    post_structure_rate_limit := 2, get_structure_rate_limit := 6,
    post_like_rate_limit := 1, default_random_limit := 40, max_scene_length := 50 }

/-- Structure row owned by identity 1, used by the self-like witness. -/
def own_row : Structure :=
  { id := 1, created_at := 0, user_id := 1, username := "u", map_id := 1,
    scene := "s", segment := 0, prefab := "p", antigrav := false, likes := 0,
    deleted := false }

/-- Server state holding only identity 1's structure. -/
def st_self : ServerState :=
  { db := { structures := [own_row], users := [], next_id := 2 },
    post_structure_rate_limiter := [], get_structure_rate_limiter := [],
    post_like_rate_limiter := [] }

/-- C5: when the target structure's owner equals the liker, like fails with
HTTP 400 and the database — structure likes, both counters, and the set of
account rows — is unchanged. -/
theorem C5_self_like_no_mutation (cfg : Config) (st : ServerState) (uid sid : Int)
    (c : Option Int) (now : Nat)
    (hg : rate_allowed st.post_like_rate_limiter uid now cfg.post_like_rate_limit = true)
    (hself : find_owner st.db sid = some uid) :
    (like_structure cfg st uid sid c now).1 = .error .badRequest400 ∧
      (like_structure cfg st uid sid c now).2.db = st.db := by
  simp [like_structure, like_tx, hg, hself]

/-- C5 witness: identity 1 likes its own structure and is rejected with no
database change. -/
theorem C5_witness :
    rate_allowed st_self.post_like_rate_limiter 1 0 cfg_demo.post_like_rate_limit = true ∧
      find_owner st_self.db 1 = some 1 ∧
      ((like_structure cfg_demo st_self 1 1 none 0).1 = .error .badRequest400 ∧
        (like_structure cfg_demo st_self 1 1 none 0).2.db = st_self.db) :=
  ⟨rfl, rfl, C5_self_like_no_mutation cfg_demo st_self 1 1 none 0 rfl rfl⟩

/-- C6: like fails with HTTP 404 whenever no non-deleted structure with the
requested id exists, leaving the database untouched; and every failure path
of like is atomic — whenever the response is an error, the database equals
the input database, so no partial application is observable. -/
theorem C6_not_found_and_atomic (cfg : Config) (st : ServerState) (uid sid : Int)
    (c : Option Int) (now : Nat) :
    (rate_allowed st.post_like_rate_limiter uid now cfg.post_like_rate_limit = true →
      (∀ r ∈ st.db.structures, ¬(r.id = sid ∧ r.deleted = false)) →
      (like_structure cfg st uid sid c now).1 = .error .notFound404 ∧
        (like_structure cfg st uid sid c now).2.db = st.db) ∧
    (∀ e : Status, (like_structure cfg st uid sid c now).1 = .error e →
      (like_structure cfg st uid sid c now).2.db = st.db) := by
  constructor
  · intro hg hnone
    have hfo : find_owner st.db sid = none := find_owner_eq_none.mpr hnone
    simp [like_structure, like_tx, hg, hfo]
  · intro e he
    exact like_error_db he

/-- C6 witness: liking the nonexistent structure 999 in the fresh store
yields 404 with no database change, and that error path is atomic. -/
theorem C6_witness :
    rate_allowed init_state.post_like_rate_limiter 1 0 cfg_demo.post_like_rate_limit = true ∧
      (∀ r ∈ init_state.db.structures, ¬(r.id = 999 ∧ r.deleted = false)) ∧
      ((like_structure cfg_demo init_state 1 999 none 0).1 = .error .notFound404 ∧
        (like_structure cfg_demo init_state 1 999 none 0).2.db = init_state.db) ∧
      (like_structure cfg_demo init_state 1 999 none 0).2.db = init_state.db := by
  have h1 := (C6_not_found_and_atomic cfg_demo init_state 1 999 none 0).1 rfl
    (by simp [init_state, DB.initial])
  refine ⟨rfl, by simp [init_state, DB.initial], h1, ?_⟩
  exact (C6_not_found_and_atomic cfg_demo init_state 1 999 none 0).2 .notFound404 h1.1

/-- Configuration with a short scene bound for the length-violation tests. -/
def cfg_short_scene : Config :=
  { max_user_structs_saved_per_scene := 2, max_requested_structs := 400,
    post_structure_rate_limit := 2, get_structure_rate_limit := 6,
    post_like_rate_limit := 1, default_random_limit := 40, max_scene_length := 2 }

/-- Payload whose scene exceeds cfg_short_scene's bound. -/
def p_long_scene : NewStructure :=
  { username := "u", map_id := 1, scene := "abc", segment := 0, prefab := "p",
    antigrav := false }

/-- C3 counterexample: a submission whose scene exceeds the bound fails with
HTTP 500 (the CHECK constraint violation surfaces as a storage error), not
with the HTTP 400 validation error the claim states. -/
theorem C3_counterexample :
    (post_structure cfg_short_scene init_state 1 p_long_scene 0).1 = .error .internal500 ∧
      ¬((post_structure cfg_short_scene init_state 1 p_long_scene 0).1
        = .error .badRequest400) := by
  refine ⟨rfl, fun hc => ?_⟩
  rw [show (post_structure cfg_short_scene init_state 1 p_long_scene 0).1
    = Except.error Status.internal500 from rfl] at hc
  exact absurd (Except.error.inj hc) (by decide)

/-- C3 amended: when the payload violates a CHECK length bound
(scene/prefab/username), submit fails with the storage error HTTP 500 — not
a 400 validation error — and nothing is persisted: the database is
unchanged. -/
theorem C3_amended_check_violation_is_500 (cfg : Config) (st : ServerState) (uid : Int)
    (s : NewStructure) (now : Nat)
    (hg : rate_allowed st.post_structure_rate_limiter uid now cfg.post_structure_rate_limit
      = true)
    (hbad : insert_checks_ok cfg s = false) :
    (post_structure cfg st uid s now).1 = .error .internal500 ∧
      (post_structure cfg st uid s now).2.db = st.db := by
  simp [post_structure, submit_tx, hg, hbad]

/-- C3 witness: the concrete over-long scene payload is rejected with 500 and
the fresh store is unchanged. -/
theorem C3_witness :
    rate_allowed init_state.post_structure_rate_limiter 1 0
        cfg_short_scene.post_structure_rate_limit = true ∧
      insert_checks_ok cfg_short_scene p_long_scene = false ∧
      ((post_structure cfg_short_scene init_state 1 p_long_scene 0).1 = .error .internal500 ∧
        (post_structure cfg_short_scene init_state 1 p_long_scene 0).2.db = init_state.db) :=
  ⟨rfl, rfl, C3_amended_check_violation_is_500 cfg_short_scene init_state 1 p_long_scene 0 rfl rfl⟩

theorem rate_allowed_false_iff (limiter : List (Int × Nat)) (uid : Int) (now cd : Nat) :
    rate_allowed limiter uid now cd = false ↔
      ∃ last, limiter.lookup uid = some last ∧ now - last < cd := by
  unfold rate_allowed
  rcases h : limiter.lookup uid with _ | last <;> simp [h]

theorem post_ok_of {cfg : Config} {st : ServerState} {uid : Int} {s : NewStructure} {now : Nat}
    (hg : rate_allowed st.post_structure_rate_limiter uid now cfg.post_structure_rate_limit
      = true)
    (hc : insert_checks_ok cfg s = true) :
    (post_structure cfg st uid s now).1 =
      .ok { id := st.db.next_id, created_at := (now : Int), user_id := uid,
            username := s.username, map_id := s.map_id, scene := s.scene,
            segment := s.segment, prefab := s.prefab, antigrav := s.antigrav,
            likes := 0, deleted := false } := by
  simp [post_structure, submit_tx, hg, hc]

theorem post_limiter_shape {cfg : Config} {st : ServerState} {uid : Int} {s : NewStructure}
    {now : Nat}
    (hg : rate_allowed st.post_structure_rate_limiter uid now cfg.post_structure_rate_limit
      = true) :
    (post_structure cfg st uid s now).2.post_structure_rate_limiter
      = limiter_record st.post_structure_rate_limiter uid now := by
  by_cases hc : insert_checks_ok cfg s = true <;> simp [post_structure, submit_tx, hg, hc]

theorem post_429_state {cfg : Config} {st : ServerState} {uid : Int} {s : NewStructure}
    {now : Nat}
    (hg : rate_allowed st.post_structure_rate_limiter uid now cfg.post_structure_rate_limit
      = false) :
    (post_structure cfg st uid s now) = (.error .tooMany429, st) := by
  simp [post_structure, hg]

/-- C9: the rate gate rejects a request with 429 exactly when the recorded
last action of that identity in that operation class is younger than the
class cooldown (shown for all three classes); when allowed, the new
timestamp is recorded before the protected work, observable even on storage
failure; and concretely, two submissions inside the cooldown yield success
then 429 with no re-recording, and a third after the cooldown succeeds. -/
theorem C9_rate_limiting (cfg : Config) (uid : Int) (s : NewStructure) (t0 t1 t2 : Nat)
    (hv : insert_checks_ok cfg s = true)
    (ht1 : t1 - t0 < cfg.post_structure_rate_limit)
    (ht2 : cfg.post_structure_rate_limit ≤ t2 - t0) :
    (∀ (st : ServerState) (uid2 : Int) (s2 : NewStructure) (now : Nat),
      ((post_structure cfg st uid2 s2 now).1 = .error .tooMany429 ↔
        ∃ last, st.post_structure_rate_limiter.lookup uid2 = some last ∧
          now - last < cfg.post_structure_rate_limit)) ∧
    (∀ (st : ServerState) (uid2 sid : Int) (c : Option Int) (now : Nat),
      ((like_structure cfg st uid2 sid c now).1 = .error .tooMany429 ↔
        ∃ last, st.post_like_rate_limiter.lookup uid2 = some last ∧
          now - last < cfg.post_like_rate_limit)) ∧
    (∀ (st : ServerState) (uid2 : Int) (p : RandomParams) (now : Nat)
        (rank tie : Structure → Nat),
      ((get_random cfg st uid2 p now rank tie).1 = .error .tooMany429 ↔
        ∃ last, st.get_structure_rate_limiter.lookup uid2 = some last ∧
          now - last < cfg.get_structure_rate_limit)) ∧
    (∀ (st : ServerState) (uid2 : Int) (s2 : NewStructure) (now : Nat),
      rate_allowed st.post_structure_rate_limiter uid2 now cfg.post_structure_rate_limit
        = true →
      (post_structure cfg st uid2 s2 now).2.post_structure_rate_limiter.lookup uid2
        = some now) ∧
    ((∃ row, (post_structure cfg init_state uid s t0).1 = .ok row) ∧
      (post_structure cfg (post_structure cfg init_state uid s t0).2 uid s t1).1
        = .error .tooMany429 ∧
      (∃ row, (post_structure cfg
          (post_structure cfg (post_structure cfg init_state uid s t0).2 uid s t1).2
          uid s t2).1 = .ok row)) := by
  have hiff : ∀ (st : ServerState) (uid2 : Int) (s2 : NewStructure) (now : Nat),
      ((post_structure cfg st uid2 s2 now).1 = .error .tooMany429 ↔
        ∃ last, st.post_structure_rate_limiter.lookup uid2 = some last ∧
          now - last < cfg.post_structure_rate_limit) := by
    intro st uid2 s2 now
    constructor
    · intro h429
      by_cases hg : rate_allowed st.post_structure_rate_limiter uid2 now
          cfg.post_structure_rate_limit = true
      · exfalso
        by_cases hc : insert_checks_ok cfg s2 = true <;>
          simp [post_structure, submit_tx, hg, hc] at h429
      · exact (rate_allowed_false_iff _ _ _ _).mp (Bool.not_eq_true _ ▸ hg)
    · intro hex
      have hg : rate_allowed st.post_structure_rate_limiter uid2 now
          cfg.post_structure_rate_limit = false := (rate_allowed_false_iff _ _ _ _).mpr hex
      simp [post_structure, hg]
  refine ⟨hiff, ?_, ?_, ?_, ?_⟩
  · intro st uid2 sid c now
    constructor
    · intro h429
      by_cases hg : rate_allowed st.post_like_rate_limiter uid2 now
          cfg.post_like_rate_limit = true
      · exfalso
        rcases hres : (like_structure cfg st uid2 sid c now).1 with e | u
        · rw [hres] at h429
          rcases hf : find_owner st.db sid with _ | owner
          · simp [like_structure, like_tx, hg, hf] at hres
            simp [← hres] at h429
          · by_cases ho : (owner == uid2) = true
            · simp [like_structure, like_tx, hg, hf, ho] at hres
              simp [← hres] at h429
            · by_cases ha : ((st.db.structures.filter
                  (fun r => r.id == sid && !r.deleted)).length == 0) = true
              · simp [like_structure, like_tx, hg, hf, ho, ha] at hres
                simp [← hres] at h429
              · simp [like_structure, like_tx, hg, hf, ho, ha] at hres
        · rw [hres] at h429
          exact Except.noConfusion h429
      · exact (rate_allowed_false_iff _ _ _ _).mp (Bool.not_eq_true _ ▸ hg)
    · intro hex
      have hg : rate_allowed st.post_like_rate_limiter uid2 now
          cfg.post_like_rate_limit = false := (rate_allowed_false_iff _ _ _ _).mpr hex
      simp [like_structure, hg]
  · intro st uid2 p now rank tie
    constructor
    · intro h429
      by_cases hg : rate_allowed st.get_structure_rate_limiter uid2 now
          cfg.get_structure_rate_limit = true
      · exfalso
        by_cases hs : cfg.max_scene_length < p.scene.length <;>
          simp [get_random, hg, hs] at h429
      · exact (rate_allowed_false_iff _ _ _ _).mp (Bool.not_eq_true _ ▸ hg)
    · intro hex
      have hg : rate_allowed st.get_structure_rate_limiter uid2 now
          cfg.get_structure_rate_limit = false := (rate_allowed_false_iff _ _ _ _).mpr hex
      simp [get_random, hg]
  · intro st uid2 s2 now hg
    rw [post_limiter_shape hg]
    exact lookup_limiter_record _ _ _
  · have hg0 : rate_allowed init_state.post_structure_rate_limiter uid t0
        cfg.post_structure_rate_limit = true := rfl
    have hlim1 : (post_structure cfg init_state uid s t0).2.post_structure_rate_limiter
        = limiter_record [] uid t0 := post_limiter_shape hg0
    have hg1 : rate_allowed (post_structure cfg init_state uid s t0).2.post_structure_rate_limiter
        uid t1 cfg.post_structure_rate_limit = false := by
      rw [hlim1]
      apply (rate_allowed_false_iff _ _ _ _).mpr
      exact ⟨t0, lookup_limiter_record _ _ _, ht1⟩
    have h429 := post_429_state (s := s) hg1
    have hst2 : (post_structure cfg (post_structure cfg init_state uid s t0).2 uid s t1).2
        = (post_structure cfg init_state uid s t0).2 := by rw [h429]
    refine ⟨⟨_, post_ok_of hg0 hv⟩, by rw [h429], ?_⟩
    rw [hst2]
    have hg2 : rate_allowed (post_structure cfg init_state uid s t0).2.post_structure_rate_limiter
        uid t2 cfg.post_structure_rate_limit = true := by
      rw [hlim1]
      unfold rate_allowed
      rw [lookup_limiter_record]
      simpa using ht2
    exact ⟨_, post_ok_of hg2 hv⟩

/-- Valid submission payload used by several witnesses. -/
def p_ok : NewStructure :=
  { username := "u", map_id := 1, scene := "s", segment := 0, prefab := "p",
    antigrav := false }

/-- C9 witness: with the 2-tick submit cooldown, submissions at times 0, 1
and 2 from a fresh state yield success, 429, success. -/
theorem C9_witness :
    insert_checks_ok cfg_demo p_ok = true ∧
      (1 : Nat) - 0 < cfg_demo.post_structure_rate_limit ∧
      cfg_demo.post_structure_rate_limit ≤ 2 - 0 ∧
      ((∃ row, (post_structure cfg_demo init_state 7 p_ok 0).1 = .ok row) ∧
        (post_structure cfg_demo (post_structure cfg_demo init_state 7 p_ok 0).2 7 p_ok 1).1
          = .error .tooMany429 ∧
        (∃ row, (post_structure cfg_demo
            (post_structure cfg_demo (post_structure cfg_demo init_state 7 p_ok 0).2
              7 p_ok 1).2 7 p_ok 2).1 = .ok row)) :=
  ⟨by decide, by decide, by decide,
    (C9_rate_limiting cfg_demo 7 p_ok 0 1 2 (by decide) (by decide) (by decide)).2.2.2.2⟩

theorem len_le_one_of_nodup_all_eq {β : Type} {l : List β} {x : β} (hn : l.Nodup)
    (hall : ∀ y ∈ l, y = x) : l.length ≤ 1 := by
  match l with
  | [] => simp
  | [a] => simp
  | a :: b :: t =>
    exfalso
    have ha := hall a (by simp)
    have hb := hall b (by simp)
    rw [List.nodup_cons] at hn
    exact hn.1 (by rw [ha, ← hb]; exact List.mem_cons_self _ _)

theorem struct_like_filter_len_le_one {l : List Structure}
    (hn : (l.map (fun r => r.id)).Nodup) (sid : Int) :
    (l.filter (fun r => r.id == sid && !r.deleted)).length ≤ 1 := by
  have hsub : ((l.filter (fun r => r.id == sid && !r.deleted)).map (fun r => r.id)).Sublist
      (l.map (fun r => r.id)) := (List.filter_sublist _).map _
  have hn2 := hsub.nodup hn
  have hall : ∀ y ∈ (l.filter (fun r => r.id == sid && !r.deleted)).map (fun r => r.id),
      y = sid := by
    intro y hy
    obtain ⟨r0, hr0, hid⟩ := List.mem_map.mp hy
    have := List.of_mem_filter hr0
    simp only [Bool.and_eq_true, beq_iff_eq] at this
    rw [← hid]
    exact this.1
  have := len_le_one_of_nodup_all_eq hn2 hall
  simpa using this

theorem ensure_filter_other {users : List UserRow} {v uid : Int} (hne : v ≠ uid) :
    (ensure_user users v).filter (fun u => u.user_id == uid)
      = users.filter (fun u => u.user_id == uid) := by
  unfold ensure_user
  by_cases h : users.any (fun u => u.user_id == v) = true
  · rw [if_pos h]
  · rw [if_neg h, List.filter_append]
    simp [List.filter_cons, hne]

theorem bump_send_filter_key_len (users : List UserRow) (v c k : Int) :
    ((bump_likes_send users v c).filter (fun u => u.user_id == k)).length
      = (users.filter (fun u => u.user_id == k)).length := by
  unfold bump_likes_send
  rw [List.filter_map, List.length_map]
  congr 1
  apply List.filter_congr
  intro u _
  simp only [Function.comp_apply]
  split <;> rfl

/-- C4: a successful like applies exactly clamp(requested, 1, 100): the
structure's likes total, the liker's likes_send and the owner's
likes_received each grow by exactly the clamped value; the raw request is
used nowhere else in the stored state. -/
theorem C4_like_applies_clamped (cfg : Config) (ops : List Op) (uid sid r : Int) (now : Nat)
    (h : (like_structure cfg (run cfg ops) uid sid (some r) now).1 = .ok ()) :
    likes_total (like_structure cfg (run cfg ops) uid sid (some r) now).2.db.structures sid
      = likes_total (run cfg ops).db.structures sid + clamp_count r ∧
    likes_send_total (like_structure cfg (run cfg ops) uid sid (some r) now).2.db.users uid
      = likes_send_total (run cfg ops).db.users uid + clamp_count r ∧
    (∀ owner, find_owner (run cfg ops).db sid = some owner →
      likes_received_total
          (like_structure cfg (run cfg ops) uid sid (some r) now).2.db.users owner
        = likes_received_total (run cfg ops).db.users owner + clamp_count r) := by
  have inv := storeinv_run cfg ops
  obtain ⟨hg, owner, hf, hne, haff, hdb⟩ := like_ok_shape h
  simp only [Option.getD_some] at hdb
  refine ⟨?_, ?_, ?_⟩
  · rw [hdb]
    simp only
    rw [likes_total_bump]
    have hle := struct_like_filter_len_le_one (l := (run cfg ops).db.structures)
      inv.ids_nodup sid
    have hone : ((run cfg ops).db.structures.filter
        (fun r => r.id == sid && !r.deleted)).length = 1 := by omega
    rw [hone]
    push_cast
    ring
  · rw [hdb]
    simp only
    rw [likes_send_total_bump_received, likes_send_total_bump_send]
    rw [ensure_filter_other hne, ensure_filter_len_one uid inv.users_nodup]
    rw [likes_send_total_ensure, likes_send_total_ensure]
    push_cast
    ring
  · intro owner2 hf2
    rw [hf] at hf2
    have howner : owner2 = owner := (Option.some.inj hf2).symm
    subst howner
    rw [hdb]
    simp only
    rw [likes_received_total_bump_received, bump_send_filter_key_len,
      ensure_filter_len_one owner2 (ensure_user_keys_nodup inv.users_nodup),
      likes_received_total_bump_send, likes_received_total_ensure,
      likes_received_total_ensure]
    push_cast
    ring

/-- C4 witness: identity 1 requests 150 likes on identity 2's structure; the
success applies exactly clamp(150) = 100 to the structure and both
counters. -/
theorem C4_witness :
    (like_structure cfg_demo (run cfg_demo [Op.submit 2 p_ok 0]) 1 1 (some 150) 0).1
        = .ok () ∧
      (likes_total
            (like_structure cfg_demo (run cfg_demo [Op.submit 2 p_ok 0]) 1 1
              (some 150) 0).2.db.structures 1
          = likes_total (run cfg_demo [Op.submit 2 p_ok 0]).db.structures 1
            + clamp_count 150 ∧
        likes_send_total
            (like_structure cfg_demo (run cfg_demo [Op.submit 2 p_ok 0]) 1 1
              (some 150) 0).2.db.users 1
          = likes_send_total (run cfg_demo [Op.submit 2 p_ok 0]).db.users 1
            + clamp_count 150 ∧
        (∀ owner, find_owner (run cfg_demo [Op.submit 2 p_ok 0]).db 1 = some owner →
          likes_received_total
              (like_structure cfg_demo (run cfg_demo [Op.submit 2 p_ok 0]) 1 1
                (some 150) 0).2.db.users owner
            = likes_received_total (run cfg_demo [Op.submit 2 p_ok 0]).db.users owner
              + clamp_count 150)) :=
  ⟨rfl, C4_like_applies_clamped cfg_demo [Op.submit 2 p_ok 0] 1 1 150 0 rfl⟩

theorem get_ok_shape {cfg : Config} {st : ServerState} {uid : Int} {p : RandomParams}
    {now : Nat} {rank tie : Structure → Nat} {rows : List Structure}
    (h : (get_random cfg st uid p now rank tie).1 = .ok rows) :
    rate_allowed st.get_structure_rate_limiter uid now cfg.get_structure_rate_limit = true ∧
      ¬(cfg.max_scene_length < p.scene.length) ∧
      rows = sample_rows st.db p rank tie (max 0 (min p.limit cfg.max_requested_structs)) := by
  by_cases hg : rate_allowed st.get_structure_rate_limiter uid now
      cfg.get_structure_rate_limit = true
  · by_cases hs : cfg.max_scene_length < p.scene.length
    · simp [get_random, hg, hs] at h
    · refine ⟨hg, hs, ?_⟩
      simp [get_random, hg, hs] at h
      exact h.symm
  · simp [get_random, hg] at h

/-- C7: a successful sample returns at most the limit clamped into
[0, max_requested_structs] — hence at most min(requested, max) rows for a
non-negative request — and every returned row matches the scene, is not
deleted, matches the map filter when given, and is not an excluded
prefab. -/
theorem C7_sample_limit_and_filters (cfg : Config) (st : ServerState) (uid : Int)
    (p : RandomParams) (now : Nat) (rank tie : Structure → Nat) (rows : List Structure)
    (hmax : 0 ≤ cfg.max_requested_structs)
    (h : (get_random cfg st uid p now rank tie).1 = .ok rows) :
    rows.length ≤ (max 0 (min p.limit cfg.max_requested_structs)).toNat ∧
      (0 ≤ p.limit → (rows.length : Int) ≤ min p.limit cfg.max_requested_structs) ∧
      ∀ r ∈ rows, r.scene = p.scene ∧ r.deleted = false ∧
        (∀ m, p.map_id = some m → r.map_id = m) ∧ r.prefab ∉ prefabs_to_exclude p := by
  obtain ⟨hg, hs, hrows⟩ := get_ok_shape h
  subst hrows
  unfold sample_rows
  have hlen : (((st.db.structures.filter (where_ok p)).mergeSort (sample_le rank tie)).take
      (max 0 (min p.limit cfg.max_requested_structs)).toNat).length
      ≤ (max 0 (min p.limit cfg.max_requested_structs)).toNat := by
    rw [List.length_take]
    exact min_le_left _ _
  refine ⟨hlen, ?_, ?_⟩
  · intro hlim
    have hcast := Int.toNat_of_nonneg (le_max_left 0 (min p.limit cfg.max_requested_structs))
    omega
  · intro r hr
    have hr2 : r ∈ st.db.structures.filter (where_ok p) :=
      List.mem_mergeSort.mp (List.mem_of_mem_take hr)
    have hw := List.of_mem_filter hr2
    unfold where_ok at hw
    rcases hpm : p.map_id with _ | m0 <;> rw [hpm] at hw <;>
      simp only [Bool.and_eq_true, beq_iff_eq, Bool.not_eq_true'] at hw
    · obtain ⟨⟨⟨hsc, hdel⟩, -⟩, hpre⟩ := hw
      refine ⟨hsc, hdel, by intro m hm; exact absurd hm (by simp), ?_⟩
      simpa using hpre
    · obtain ⟨⟨⟨hsc, hdel⟩, hm0⟩, hpre⟩ := hw
      refine ⟨hsc, hdel, ?_, by simpa using hpre⟩
      intro m hm
      rw [Option.some.inj hm] at hm0
      exact hm0

/-- Sampling parameters used by the sampling witnesses. -/
def p_sample : RandomParams :=
  { scene := "s", map_id := none, limit := 5, exclude_prefabs := none }

/-- C7 witness: sampling the empty store succeeds with no rows, within the
clamped limit and trivially matching all filters. -/
theorem C7_witness :
    (0 : Int) ≤ cfg_demo.max_requested_structs ∧
      (get_random cfg_demo init_state 1 p_sample 0 (fun _ => 0) (fun _ => 0)).1 = .ok [] ∧
      (([] : List Structure).length
          ≤ (max 0 (min p_sample.limit cfg_demo.max_requested_structs)).toNat ∧
        (0 ≤ p_sample.limit → (([] : List Structure).length : Int)
          ≤ min p_sample.limit cfg_demo.max_requested_structs) ∧
        ∀ r ∈ ([] : List Structure), r.scene = p_sample.scene ∧ r.deleted = false ∧
          (∀ m, p_sample.map_id = some m → r.map_id = m) ∧
          r.prefab ∉ prefabs_to_exclude p_sample) := by
  have hok : (get_random cfg_demo init_state 1 p_sample 0 (fun _ => 0) (fun _ => 0)).1
      = .ok [] := by
    have hslen : ¬(cfg_demo.max_scene_length < p_sample.scene.length) := by decide
    simp [get_random, sample_rows, rate_allowed, init_state, DB.initial, hslen,
      List.mergeSort]
  exact ⟨by decide, hok,
    C7_sample_limit_and_filters cfg_demo init_state 1 p_sample 0 (fun _ => 0) (fun _ => 0) []
      (by decide) hok⟩

theorem spec_count_le_count (db : DB) (uid : Int) (sc : String) :
    spec_count_non_deleted db uid sc ≤ count_user_scene db uid sc := by
  unfold spec_count_non_deleted count_user_scene rows_of
  have hmono := List.countP_mono_left (l := db.structures)
    (p := fun r => r.user_id == uid && r.scene == sc && !r.deleted)
    (q := fun r => r.user_id == uid && r.scene == sc)
    (by intro r _ hp; simp only [Bool.and_eq_true] at hp ⊢; exact hp.1)
  rw [List.countP_eq_length_filter, List.countP_eq_length_filter] at hmono
  exact_mod_cast hmono

theorem append_row_ids_nodup {db : DB} (hn : (db.structures.map (fun r => r.id)).Nodup)
    (hlt : ∀ r ∈ db.structures, r.id < db.next_id) {row : Structure}
    (hid : row.id = db.next_id) :
    ((db.structures ++ [row]).map (fun r => r.id)).Nodup := by
  rw [List.map_append, List.nodup_append]
  refine ⟨hn, by simp, ?_⟩
  intro x hx
  obtain ⟨r0, hr0, hid0⟩ := List.mem_map.mp hx
  have hlt0 := hlt r0 hr0
  simp only [List.map_cons, List.map_nil, List.mem_cons, List.not_mem_nil, or_false]
  intro hxe
  rw [hxe, hid] at hid0
  rw [hid0] at hlt0
  exact absurd hlt0 (lt_irrefl _)

/-- C1: on every reachable state the per-identity per-scene non-deleted count
respects the cap, it still does after any further successful submission, and
a successful submission either evicts nothing or removes exactly one row —
the one minimal by (created_at, id) among that identity's rows in that scene
after the insert. -/
theorem C1_retention_cap_and_single_eviction (cfg : Config)
    (h0 : 0 ≤ cfg.max_user_structs_saved_per_scene) (ops : List Op) (uid : Int)
    (s : NewStructure) (now : Nat) (row : Structure)
    (heq : (post_structure cfg (run cfg ops) uid s now).1 = .ok row)
    (uid2 : Int) (sc : String) :
    spec_count_non_deleted (run cfg ops).db uid2 sc
        ≤ cfg.max_user_structs_saved_per_scene ∧
      spec_count_non_deleted (post_structure cfg (run cfg ops) uid s now).2.db uid2 sc
        ≤ cfg.max_user_structs_saved_per_scene ∧
      ((post_structure cfg (run cfg ops) uid s now).2.db.structures
          = (run cfg ops).db.structures ++ [row] ∨
        ∃ m, m ∈ rows_of ((run cfg ops).db.structures ++ [row]) uid s.scene ∧
          (∀ y ∈ rows_of ((run cfg ops).db.structures ++ [row]) uid s.scene,
            older y m = false) ∧
          (post_structure cfg (run cfg ops) uid s now).2.db.structures
            = ((run cfg ops).db.structures ++ [row]).filter (fun r => !(r.id == m.id)) ∧
          (((run cfg ops).db.structures ++ [row]).filter
            (fun r => r.id == m.id)).length = 1) := by
  have inv := storeinv_run cfg ops
  have inv2 := @storeinv_post cfg (run cfg ops) uid s now inv
  refine ⟨le_trans (spec_count_le_count _ _ _) (inv.cap h0 uid2 sc),
    le_trans (spec_count_le_count _ _ _) (inv2.cap h0 uid2 sc), ?_⟩
  obtain ⟨hg, htx⟩ := post_ok_shape heq
  obtain ⟨hc, hrow, hdb3⟩ := submit_tx_ok_shape htx
  have hrow_id : row.id = (run cfg ops).db.next_id := by rw [hrow]
  have hrow_uid : row.user_id = uid := by rw [hrow]
  have hrow_sc : row.scene = s.scene := by rw [hrow]
  have hnodup2 := append_row_ids_nodup inv.ids_nodup inv.ids_lt hrow_id
  by_cases hover : cfg.max_user_structs_saved_per_scene <
      count_user_scene
        { structures := (run cfg ops).db.structures ++ [row],
          users := ensure_user (run cfg ops).db.users uid,
          next_id := (run cfg ops).db.next_id + 1 } uid s.scene
  · right
    rw [if_pos hover] at hdb3
    have hrowmem : row ∈ rows_of ((run cfg ops).db.structures ++ [row]) uid s.scene := by
      rw [rows_of_append, rows_of_single]
      have hcond : (row.user_id == uid && row.scene == s.scene) = true := by
        simp [hrow_uid, hrow_sc]
      rw [hcond, if_pos rfl]
      exact List.mem_append_right _ (List.mem_singleton.mpr rfl)
    obtain ⟨i, hi⟩ := @oldest_id_some
        { structures := (run cfg ops).db.structures ++ [row],
          users := ensure_user (run cfg ops).db.users uid,
          next_id := (run cfg ops).db.next_id + 1 } uid s.scene (List.ne_nil_of_mem hrowmem)
    unfold delete_oldest at hdb3
    rw [hi] at hdb3
    simp only at hdb3
    obtain ⟨m, hm, hmi, hmin⟩ := oldest_id_spec hi
    have hmmem : m ∈ (run cfg ops).db.structures ++ [row] :=
      List.mem_of_mem_filter hm
    refine ⟨m, hm, hmin, ?_, ?_⟩
    · rw [hdb3, ← hmi]
    · rw [struct_filter_key_singleton hnodup2 hmmem]
      rfl
  · left
    rw [if_neg hover] at hdb3
    rw [hdb3]

/-- Configuration with a retention cap of one and no submit cooldown, used by
the retention witness. -/
def cfg_cap1 : Config :=
  { max_user_structs_saved_per_scene := 1, max_requested_structs := 400,
    post_structure_rate_limit := 0, get_structure_rate_limit := 0,
    post_like_rate_limit := 0, default_random_limit := 40, max_scene_length := 50 }

/-- Two prior submissions by identity 1 to scene "s". -/
def ops_two : List Op := [Op.submit 1 p_ok 0, Op.submit 1 p_ok 10]

/-- Row returned by the third submission of the retention witness. -/
def row3 : Structure :=
  { id := 3, created_at := 20, user_id := 1, username := "u", map_id := 1,
    scene := "s", segment := 0, prefab := "p", antigrav := false, likes := 0,
    deleted := false }

/-- C1 witness: with a cap of one, a third submission to the same scene
succeeds and the cap and single-eviction characterization hold concretely. -/
theorem C1_witness :
    (0 : Int) ≤ cfg_cap1.max_user_structs_saved_per_scene ∧
      (post_structure cfg_cap1 (run cfg_cap1 ops_two) 1 p_ok 20).1 = .ok row3 ∧
      (spec_count_non_deleted (run cfg_cap1 ops_two).db 1 "s"
          ≤ cfg_cap1.max_user_structs_saved_per_scene ∧
        spec_count_non_deleted
            (post_structure cfg_cap1 (run cfg_cap1 ops_two) 1 p_ok 20).2.db 1 "s"
          ≤ cfg_cap1.max_user_structs_saved_per_scene ∧
        ((post_structure cfg_cap1 (run cfg_cap1 ops_two) 1 p_ok 20).2.db.structures
            = (run cfg_cap1 ops_two).db.structures ++ [row3] ∨
          ∃ m, m ∈ rows_of ((run cfg_cap1 ops_two).db.structures ++ [row3]) 1 p_ok.scene ∧
            (∀ y ∈ rows_of ((run cfg_cap1 ops_two).db.structures ++ [row3]) 1 p_ok.scene,
              older y m = false) ∧
            (post_structure cfg_cap1 (run cfg_cap1 ops_two) 1 p_ok 20).2.db.structures
              = ((run cfg_cap1 ops_two).db.structures ++ [row3]).filter
                  (fun r => !(r.id == m.id)) ∧
            (((run cfg_cap1 ops_two).db.structures ++ [row3]).filter
              (fun r => r.id == m.id)).length = 1)) :=
  ⟨by decide, rfl,
    C1_retention_cap_and_single_eviction cfg_cap1 (by decide) ops_two 1 p_ok 20 row3 rfl 1 "s"⟩

/-! Lemmas for the diversity property of the sampling order. -/

theorem sample_le_trans (rank tie : Structure → Nat) :
    ∀ a b c, sample_le rank tie a b = true → sample_le rank tie b c = true →
      sample_le rank tie a c = true := by
  intro a b c hab hbc
  simp only [sample_le, decide_eq_true_eq] at *
  omega

theorem sample_le_total (rank tie : Structure → Nat) :
    ∀ a b, (sample_le rank tie a b || sample_le rank tie b a) = true := by
  intro a b
  simp only [sample_le, Bool.or_eq_true, decide_eq_true_eq]
  omega

theorem rank_le_of_sample_le {rank tie : Structure → Nat} {a b : Structure}
    (h : sample_le rank tie a b = true) : rank a ≤ rank b := by
  simp only [sample_le, decide_eq_true_eq] at h
  omega

theorem mem_own_partition {fl : List Structure} {r : Structure} (hr : r ∈ fl) :
    r ∈ fl.filter (fun x => part_key x == part_key r) :=
  List.mem_filter.mpr ⟨hr, by simp⟩

theorem rank_ge_one {fl : List Structure} {rank : Structure → Nat} (hrv : rank_valid rank fl)
    {r : Structure} (hr : r ∈ fl) : 1 ≤ rank r := by
  have hk : part_key r ∈ fl.map part_key := List.mem_map_of_mem _ hr
  have hperm := hrv (part_key r) hk
  have hmem : rank r ∈ (fl.filter (fun x => part_key x == part_key r)).map rank :=
    List.mem_map_of_mem _ (mem_own_partition hr)
  have := hperm.mem_iff.mp hmem
  rw [List.mem_range'] at this
  omega

theorem rank_inj_in_partition {fl : List Structure} {rank : Structure → Nat}
    (hrv : rank_valid rank fl) (hnodup : fl.Nodup) {a b : Structure}
    (ha : a ∈ fl) (hb : b ∈ fl) (hk : part_key a = part_key b)
    (hrank : rank a = rank b) : a = b := by
  have hka : part_key a ∈ fl.map part_key := List.mem_map_of_mem _ ha
  have hperm := hrv (part_key a) hka
  have hmn : ((fl.filter (fun x => part_key x == part_key a)).map rank).Nodup :=
    (List.Perm.nodup_iff hperm).mpr (List.nodup_range' _ _)
  have hamem : a ∈ fl.filter (fun x => part_key x == part_key a) := mem_own_partition ha
  have hbmem : b ∈ fl.filter (fun x => part_key x == part_key a) := by
    rw [hk]
    exact mem_own_partition hb
  exact List.inj_on_of_nodup_map hmn hamem hbmem hrank

theorem exists_rank_one {fl : List Structure} {rank : Structure → Nat}
    (hrv : rank_valid rank fl) {k : Int × Int} (hk : k ∈ fl.map part_key) :
    ∃ a ∈ fl, part_key a = k ∧ rank a = 1 := by
  have hperm := hrv k hk
  obtain ⟨r, hr, hkr⟩ := List.mem_map.mp hk
  have hrmem : r ∈ fl.filter (fun x => part_key x == k) :=
    List.mem_filter.mpr ⟨hr, by simp [hkr]⟩
  have hlen : 1 ≤ (fl.filter (fun x => part_key x == k)).length :=
    List.length_pos.mpr (List.ne_nil_of_mem hrmem)
  have h1 : (1 : Nat) ∈ List.range' 1 (fl.filter (fun x => part_key x == k)).length := by
    rw [List.mem_range']
    exact ⟨0, by omega, by omega⟩
  have h1m : (1 : Nat) ∈ (fl.filter (fun x => part_key x == k)).map rank :=
    hperm.mem_iff.mpr h1
  obtain ⟨a, hamem, hra⟩ := List.mem_map.mp h1m
  have hka : part_key a = k := by
    have := List.of_mem_filter hamem
    simpa using this
  exact ⟨a, List.mem_of_mem_filter hamem, hka, hra⟩

theorem firsts_length {fl : List Structure} {rank : Structure → Nat}
    (hrv : rank_valid rank fl) (hnodup : fl.Nodup) :
    (fl.filter (fun r => rank r == 1)).length = num_partitions fl := by
  have hFnodup : (fl.filter (fun r => rank r == 1)).Nodup := hnodup.filter _
  have hMnodup : ((fl.filter (fun r => rank r == 1)).map part_key).Nodup := by
    apply List.Nodup.map_on ?_ hFnodup
    intro a ha b hb hkk
    have hra : rank a = 1 := by simpa using List.of_mem_filter ha
    have hrb : rank b = 1 := by simpa using List.of_mem_filter hb
    exact rank_inj_in_partition hrv hnodup (List.mem_of_mem_filter ha)
      (List.mem_of_mem_filter hb) hkk (hra.trans hrb.symm)
  have hperm2 : ((fl.filter (fun r => rank r == 1)).map part_key).Perm
      ((fl.map part_key).dedup) := by
    rw [List.perm_ext_iff_of_nodup hMnodup (List.nodup_dedup _)]
    intro k
    constructor
    · intro hk
      obtain ⟨a, hamem, hka⟩ := List.mem_map.mp hk
      rw [List.mem_dedup]
      rw [← hka]
      exact List.mem_map_of_mem _ (List.mem_of_mem_filter hamem)
    · intro hk
      rw [List.mem_dedup] at hk
      obtain ⟨a, ha, hka, hra⟩ := exists_rank_one hrv hk
      have : a ∈ fl.filter (fun r => rank r == 1) :=
        List.mem_filter.mpr ⟨ha, by simp [hra]⟩
      rw [← hka]
      exact List.mem_map_of_mem _ this
  have := hperm2.length_eq
  rw [List.length_map] at this
  exact this

theorem sorted_rank_filter_take (rank : Structure → Nat) :
    ∀ l : List Structure, List.Pairwise (fun a b => rank a ≤ rank b) l →
      (∀ r ∈ l, 1 ≤ rank r) →
      l.filter (fun r => rank r == 1) = l.take (l.countP (fun r => rank r == 1)) := by
  intro l
  induction l with
  | nil => intro _ _; rfl
  | cons x xs ih =>
    intro hp hpos
    rw [List.pairwise_cons] at hp
    by_cases hx : rank x = 1
    · rw [List.filter_cons_of_pos (by simp [hx]), List.countP_cons_of_pos _ _ (by simp [hx])]
      rw [List.take_succ_cons]
      rw [ih hp.2 (fun r hr => hpos r (List.mem_cons_of_mem _ hr))]
    · have hx2 : 2 ≤ rank x := by
        have := hpos x (List.mem_cons_self _ _)
        omega
      have hall : ∀ r ∈ xs, ¬(rank r == 1) = true := by
        intro r hr
        have := hp.1 r hr
        simp only [beq_iff_eq]
        omega
      rw [List.filter_cons_of_neg (by simp [hx]), List.countP_cons_of_neg _ _ (by simp [hx])]
      rw [List.filter_eq_nil_iff.mpr hall]
      rw [List.countP_eq_zero.mpr hall]
      rfl

theorem sample_diverse_core {fl : List Structure} {rank tie : Structure → Nat} {n : Nat}
    (hnodup : fl.Nodup) (hrv : rank_valid rank fl) (hn : n ≤ num_partitions fl) :
    (((fl.mergeSort (sample_le rank tie)).take n).map part_key).Nodup := by
  have hperm : (fl.mergeSort (sample_le rank tie)).Perm fl := List.mergeSort_perm fl _
  have hlnodup : (fl.mergeSort (sample_le rank tie)).Nodup :=
    (List.Perm.nodup_iff hperm).mpr hnodup
  have hsorted : List.Pairwise (fun a b => sample_le rank tie a b = true)
      (fl.mergeSort (sample_le rank tie)) :=
    List.sorted_mergeSort (sample_le_trans rank tie) (sample_le_total rank tie) fl
  have hsorted_rank : List.Pairwise (fun a b => rank a ≤ rank b)
      (fl.mergeSort (sample_le rank tie)) :=
    hsorted.imp rank_le_of_sample_le
  have hpos : ∀ r ∈ fl.mergeSort (sample_le rank tie), 1 ≤ rank r := by
    intro r hr
    exact rank_ge_one hrv (hperm.mem_iff.mp hr)
  have hcount : (fl.mergeSort (sample_le rank tie)).countP (fun r => rank r == 1)
      = num_partitions fl := by
    rw [hperm.countP_eq, List.countP_eq_length_filter]
    exact firsts_length hrv hnodup
  have htake : (fl.mergeSort (sample_le rank tie)).take n
      = ((fl.mergeSort (sample_le rank tie)).take
          ((fl.mergeSort (sample_le rank tie)).countP (fun r => rank r == 1))).take n := by
    rw [List.take_take]
    rw [Nat.min_eq_left (by rw [hcount]; exact hn)]
  have hsub1 : ∀ r ∈ (fl.mergeSort (sample_le rank tie)).take n,
      rank r = 1 ∧ r ∈ fl := by
    intro r hr
    rw [htake] at hr
    have hr2 := List.mem_of_mem_take hr
    rw [← sorted_rank_filter_take rank _ hsorted_rank hpos] at hr2
    refine ⟨by simpa using List.of_mem_filter hr2, ?_⟩
    exact hperm.mem_iff.mp (List.mem_of_mem_filter hr2)
  have htnodup : ((fl.mergeSort (sample_le rank tie)).take n).Nodup :=
    (List.take_sublist _ _).nodup hlnodup
  apply List.Nodup.map_on ?_ htnodup
  intro a ha b hb hkk
  obtain ⟨hra, hfa⟩ := hsub1 a ha
  obtain ⟨hrb, hfb⟩ := hsub1 b hb
  exact rank_inj_in_partition hrv hnodup hfa hfb hkk (hra.trans hrb.symm)

/-- C8: when the sampling rank oracle is a valid per-partition ROW_NUMBER
assignment and the clamped limit does not exceed the number of distinct
(owner, segment) partitions of the filtered set, every successful sample
returns rows from pairwise distinct partitions: each partition's first pick
precedes any partition's second pick, so no partition repeats within the
truncated result. -/
theorem C8_diversity_before_repeats (cfg : Config) (st : ServerState) (uid : Int)
    (p : RandomParams) (now : Nat) (rank tie : Structure → Nat) (rows : List Structure)
    (hids : (st.db.structures.map (fun r => r.id)).Nodup)
    (hrv : rank_valid rank (st.db.structures.filter (where_ok p)))
    (hlim : (max 0 (min p.limit cfg.max_requested_structs)).toNat
      ≤ num_partitions (st.db.structures.filter (where_ok p)))
    (h : (get_random cfg st uid p now rank tie).1 = .ok rows) :
    (rows.map part_key).Nodup := by
  obtain ⟨hg, hs, hrows⟩ := get_ok_shape h
  subst hrows
  unfold sample_rows
  have hflnodup : (st.db.structures.filter (where_ok p)).Nodup :=
    (List.filter_sublist _).nodup (List.Nodup.of_map _ hids)
  exact sample_diverse_core hflnodup hrv hlim

/-- Two structures from different owners in scene "s". -/
def srow1 : Structure :=
  { id := 1, created_at := 0, user_id := 1, username := "a", map_id := 1,
    scene := "s", segment := 0, prefab := "p", antigrav := false, likes := 0,
    deleted := false }

/-- Second sampling-witness structure, owned by identity 2. -/
def srow2 : Structure :=
  { id := 2, created_at := 1, user_id := 2, username := "b", map_id := 1,
    scene := "s", segment := 0, prefab := "p", antigrav := false, likes := 0,
    deleted := false }

/-- Server state holding the two sampling-witness structures. -/
def st_two : ServerState :=
  { db := { structures := [srow1, srow2], users := [], next_id := 3 },
    post_structure_rate_limiter := [], get_structure_rate_limiter := [],
    post_like_rate_limiter := [] }

/-- Sampling parameters requesting two rows of scene "s". -/
def p_s2 : RandomParams :=
  { scene := "s", map_id := none, limit := 2, exclude_prefabs := none }

/-- C8 witness: sampling two rows from two distinct (owner, segment)
partitions under the constant-one rank oracle returns both partitions
without repetition. -/
theorem C8_witness :
    ((st_two.db.structures.map (fun r => r.id)).Nodup) ∧
      rank_valid (fun _ => 1) (st_two.db.structures.filter (where_ok p_s2)) ∧
      (max 0 (min p_s2.limit cfg_demo.max_requested_structs)).toNat
        ≤ num_partitions (st_two.db.structures.filter (where_ok p_s2)) ∧
      (get_random cfg_demo st_two 1 p_s2 0 (fun _ => 1) (fun r => r.id.toNat)).1
        = .ok [srow1, srow2] ∧
      (([srow1, srow2].map part_key).Nodup) := by
  have hslen : ¬((50 : Nat) < ("s" : String).length) := by decide
  have hok : (get_random cfg_demo st_two 1 p_s2 0 (fun _ => 1) (fun r => r.id.toNat)).1
      = .ok [srow1, srow2] := by
    simp only [get_random, sample_rows, rate_allowed, st_two, cfg_demo, p_s2, List.lookup]
    rw [if_pos trivial, if_neg hslen]
    simp [List.mergeSort, where_ok, sample_le, prefabs_to_exclude, srow1, srow2,
      List.merge, num_partitions, part_key]
  refine ⟨by decide, by unfold rank_valid; decide, by unfold num_partitions; decide, hok, ?_⟩
  exact C8_diversity_before_repeats cfg_demo st_two 1 p_s2 0 (fun _ => 1)
    (fun r => r.id.toNat) [srow1, srow2] (by decide)
    (by unfold rank_valid; decide) (by unfold num_partitions; decide) hok

/-- Row inserted by the single submission of the C10 witness run. -/
def submitted_row : Structure :=
  { id := 1, created_at := 0, user_id := 1, username := "u", map_id := 1,
    scene := "s", segment := 0, prefab := "p", antigrav := false, likes := 0,
    deleted := false }

/-- C10 witness: the row produced by a concrete submission is stored with
deleted = false and the deleted filter keeps the whole table. -/
theorem C10_witness :
    submitted_row ∈ (run cfg_demo [Op.submit 1 p_ok 0]).db.structures ∧
      submitted_row.deleted = false ∧
      (run cfg_demo [Op.submit 1 p_ok 0]).db.structures.filter (fun r => !r.deleted)
        = (run cfg_demo [Op.submit 1 p_ok 0]).db.structures := by
  have hmem : submitted_row ∈ (run cfg_demo [Op.submit 1 p_ok 0]).db.structures := by
    rw [show (run cfg_demo [Op.submit 1 p_ok 0]).db.structures = [submitted_row] from rfl]
    exact List.mem_singleton.mpr rfl
  exact ⟨hmem, (C10_no_soft_deleted_rows cfg_demo [Op.submit 1 p_ok 0]).1 submitted_row hmem,
    (C10_no_soft_deleted_rows cfg_demo [Op.submit 1 p_ok 0]).2⟩
